import Mathlib

/-!
# Verification of the Signal Extraction & Scoring Engine

Shallow embedding of the scoring engine of the `audit_tool` repository
(`src/app/api/analyze/route.js`, together with the detailed security scorer of
the later revision in `src/unnamed/part_001`).

Conventions of the embedding:
* JavaScript numbers are modelled as `Int` where the source only performs
  integer arithmetic (all point allocations), and as `Rat` where fractional
  values flow in (the performance-lab sub-scores in `[0,1]`, the alt-text
  ratio).  `Math.round` is `jsRound`, i.e. `⌊x + 1/2⌋`, which is exactly
  JavaScript's round-half-up behaviour.
* JavaScript truthiness of optional strings (`if (x)`) is `strTruthy`:
  the value is present and non-empty.
* The fetched results are modelled as in the source: a raw page fetch either
  yields the parsed page data or an object carrying only an error marker
  (`RawPageData.err`); a performance report is `Option PageSpeedData`, `none`
  on fetch failure.  Per the data model, a performance-lab sub-score is a
  rational in `[0,1]` (`UnitScore`).
* Display-only record fields that no control flow ever reads back
  (`details`, `whyItMatters`, `recommendation`, `opportunities`,
  `recommendations`, `llmContext`, `features`, the `checks` maps, `grade`,
  `summary`) are elided; every field feeding scores, statuses or the `issues`
  lists is retained with the exact source strings.
* Case-insensitive regex matching is implemented character-by-character on
  the lower-cased text; each detector pattern of the source is translated to
  an explicit executable matcher.
-/

/-- JavaScript `Math.round`: round half towards positive infinity. -/
def jsRound (q : ℚ) : ℤ := ⌊q + 1/2⌋

/-- JS truthiness of a possibly-absent string (`null`/`undefined`/`""` are
falsy, any non-empty string is truthy). -/
def strTruthy : Option String → Bool
  | none => false
  | some s => !s.isEmpty

/-- A performance-lab sub-score: per the data model, a rational in `[0,1]`. -/
def UnitScore : Type := { q : ℚ // 0 ≤ q ∧ q ≤ 1 }

/-- The relevant part of one PageSpeed (performance-lab) response:
`lighthouseResult.categories.{performance,accessibility}.score`.  `none`
models an absent (`undefined`) field. -/
structure PageSpeedData where
  performanceScore : Option UnitScore
  accessibilityScore : Option UnitScore

/-- `pageSpeedData?.lighthouseResult?.categories?.performance?.score || 0`. -/
def perfScoreOrZero : Option PageSpeedData → ℚ
  | none => 0
  | some ps =>
    match ps.performanceScore with
    | none => 0
    | some q => q.val

/-- `pageSpeedData?.lighthouseResult?.categories?.accessibility?.score`
(`none` = `undefined`). -/
def a11yScoreOpt : Option PageSpeedData → Option UnitScore
  | none => none
  | some ps => ps.accessibilityScore

/-- Case-insensitive header mapping as produced by
`Object.fromEntries(response.headers.entries())`; the `fetch` API lower-cases
all header names, and the source looks keys up by their lower-case form.
Duplicate keys: the later entry wins, as in `Object.fromEntries`. -/
def Headers := List (String × String)

/-- Object property lookup `headers[k]` (`none` = `undefined`). -/
def hdrGet (hs : Headers) (k : String) : Option String :=
  (hs.reverse.find? (fun p => p.1 == k)).map (·.2)

/-- JS truthiness of `headers[k]` (absent or empty string is falsy). -/
def hdrTruthy (hs : Headers) (k : String) : Bool :=
  match hdrGet hs k with
  | none => false
  | some v => !v.isEmpty

/-! ## Character-level string matching

The source uses JS regexes over the raw HTML.  Every pattern is translated to
an explicit matcher over `List Char`.  Case-insensitive (`/i`) patterns are
matched on the lower-cased text against lower-cased literals. -/

/-- Lower-cased character list of a string (for `/i` matching). -/
def lcChars (s : String) : List Char := s.data.map Char.toLower

/-- Contiguous-substring test (`String.prototype.includes`). -/
def hasSub (p : List Char) : List Char → Bool
  | [] => p.isEmpty
  | c :: rest => p.isPrefixOf (c :: rest) || hasSub p rest

/-- `headers[k]?.includes(sub)` (case-sensitive substring test;
`false` when the header is absent). -/
def hdrIncludes (hs : Headers) (k sub : String) : Bool :=
  match hdrGet hs k with
  | none => false
  | some v => hasSub sub.data v.data

/-- `url.startsWith('https://')` (via the character list, which the kernel
evaluates). -/
def startsWithHttps (url : String) : Bool :=
  "https://".data.isPrefixOf url.data

/-- Case-insensitive containment of a literal (the workhorse of the
detector registries, e.g. `/embed\.tawk\.to/i.test(html)`). -/
def ciContains (html : String) (pat : String) : Bool :=
  hasSub (lcChars pat) (lcChars html)

/-- `p` is a prefix of `cs` up to lower-casing of `cs` (`p` is given
lower-cased). -/
def ciPrefOf : List Char → List Char → Bool
  | [], _ => true
  | _ :: _, [] => false
  | p :: ps, c :: cs => (p == c.toLower) && ciPrefOf ps cs

/-- JS regex `\s`: whitespace characters (ASCII portion). -/
def isWsChar (c : Char) : Bool :=
  c == ' ' || c == '\t' || c == '\n' || c == '\r' || c == '\x0b' || c == '\x0c'

/-- Drop a (possibly empty) whitespace run: `\s*`. -/
def skipWs (cs : List Char) : List Char := cs.dropWhile isWsChar

/-- Consume a sequence of literal tokens separated by `\s*` starting exactly
here; returns the rest on success. Tokens are given lower-cased, input is
matched case-insensitively. -/
def tokSeqAt : List (List Char) → List Char → Bool
  | [], _ => true
  | t :: ts, cs =>
    ciPrefOf t cs && tokSeqAt ts (skipWs (cs.drop t.length))

/-- Does `f` hold at some suffix of `cs` (i.e. does the anchored pattern `f`
match at some position)? -/
def anyPos (f : List Char → Bool) : List Char → Bool
  | [] => f []
  | c :: rest => f (c :: rest) || anyPos f rest

/-- Pattern `t₀\s*t₁\s*…` anywhere in the html, case-insensitively
(e.g. `/zE\s*\(/i`, `/aria-label\s*=/i`). -/
def ciTokSeq (html : String) (toks : List String) : Bool :=
  anyPos (tokSeqAt (toks.map lcChars)) (lcChars html)

/-- After the `.*` of `p₁.*p₂`: seek `p₂` without crossing a line break
(JS `.` matches anything but a newline). -/
def seekNoNl (p : List Char) : List Char → Bool
  | [] => p.isEmpty
  | c :: rest =>
    if p.isPrefixOf (c :: rest) then true
    else if c == '\n' || c == '\r' then false
    else seekNoNl p rest

/-- Pattern `p₁.*p₂` anywhere in the html, case-insensitively
(e.g. `/hubspot.*conversations/i`). -/
def ciSeqNoNl (html : String) (p1 p2 : String) : Bool :=
  anyPos
    (fun cs =>
      (lcChars p1).isPrefixOf cs && seekNoNl (lcChars p2) (cs.drop p1.length))
    (lcChars html)

/-- `p₁` followed anywhere later by `p₂` (for `[\s\S]*?` separators, which do
cross newlines). -/
def seqAnywhere (p1 p2 : List Char) : List Char → Bool
  | [] => false
  | c :: rest =>
    (p1.isPrefixOf (c :: rest) && hasSub p2 ((c :: rest).drop p1.length)) ||
      seqAnywhere p1 p2 rest

/-- Split at the first `'>'`: returns the (`'>'`-free) part before it and the
part after it.  This is how a greedy `[^>]*>` consumes input. -/
def takeUntilGt : List Char → Option (List Char × List Char)
  | [] => none
  | c :: rest =>
    if c == '>' then some ([], rest)
    else (takeUntilGt rest).map (fun p => (c :: p.1, p.2))

/-- Global matches of a tag-shaped regex `<name[^>]*>` (e.g. `/<img[^>]*>/gi`,
`/<h1[^>]*>/gi`, `/<input[^>]*…>/gi`): at each position, if the (lower-cased)
opener `tag` matches, the match runs to the first `'>'`; scanning resumes
after the match, as with a `lastIndex`-driven global regex.  Returns the
matched substrings (original case). -/
def scanTagsFuel (tag : List Char) : ℕ → List Char → List (List Char)
  | 0, _ => []
  | _, [] => []
  | fuel + 1, c :: rest =>
    if ciPrefOf tag (c :: rest) then
      match takeUntilGt (c :: rest) with
      | some (before, after) =>
        (before ++ ['>']) :: scanTagsFuel tag fuel after
      | none => scanTagsFuel tag fuel rest
    else scanTagsFuel tag fuel rest

/-- The same scanner at fuel `length + 1`; every step either stops or
consumes at least one character, so that fuel never runs out (the fuel only
makes the recursion structural, so the kernel can evaluate it). -/
def scanTags (tag : List Char) (cs : List Char) : List (List Char) :=
  scanTagsFuel tag (cs.length + 1) cs


/-- `'>'`-free span from here on (`[^>]*` with no closing requirement). -/
def takeNoGt (cs : List Char) : List Char := cs.takeWhile (fun c => !(c == '>'))

/-- The literal `</script>`, lower-cased. -/
def closeScriptL : List Char := lcChars "</script>"

/-- Find the first (case-insensitive) `</script>`: returns the text before
it, the nine original characters of the closing tag, and the rest. -/
def findCloseScript : List Char → Option (List Char × List Char × List Char)
  | [] => none
  | c :: rest =>
    if ciPrefOf closeScriptL (c :: rest) then
      some ([], (c :: rest).take 9, (c :: rest).drop 9)
    else
      (findCloseScript rest).map (fun t => (c :: t.1, t.2.1, t.2.2))

/-- Does the `'>'`-free attribute region contain
`type=["']application/ld+json["']` (quotes chosen independently, as the two
`["']` classes do)?  Anchored test at one position. -/
def ldTypeAttrAt (cs : List Char) : Bool :=
  ciPrefOf (lcChars "type=") cs &&
    (match cs.drop 5 with
     | q1 :: cs2 =>
       (q1 == '"' || q1 == '\'') &&
         ciPrefOf (lcChars "application/ld+json") cs2 &&
         (match cs2.drop 19 with
          | q2 :: _ => q2 == '"' || q2 == '\''
          | [] => false)
     | [] => false)

/-- The literal `<script`, lower-cased. -/
def openScriptL : List Char := lcChars "<script"

/-- Global matches of
`/<script[^>]*type=["']application\/ld\+json["'][^>]*>([\s\S]*?)<\/script>/gi`
on the raw html: at a position where `<script` matches and whose `'>'`-free
attribute region contains the JSON-LD type attribute, the match runs lazily
to the first `</script>`; scanning resumes after the match. -/
def jsonLdScanFuel : ℕ → List Char → List (List Char)
  | 0, _ => []
  | _, [] => []
  | fuel + 1, c :: rest =>
    if ciPrefOf openScriptL (c :: rest) then
      match takeUntilGt (c :: rest) with
      | some (before, after) =>
        if anyPos ldTypeAttrAt before then
          match findCloseScript after with
          | some (content, closer, rest2) =>
            (before ++ '>' :: (content ++ closer)) ::
              jsonLdScanFuel fuel rest2
          | none => jsonLdScanFuel fuel rest
        else jsonLdScanFuel fuel rest
      | none => jsonLdScanFuel fuel rest
    else jsonLdScanFuel fuel rest

/-- `html.match(/<script[^>]*type=["']application\/ld\+json["'][^>]*>([\s\S]*?)<\/script>/gi)`,
as the list of matched substrings (empty list for a `null` match result). -/
def jsonLdMatches (html : String) : List String :=
  (jsonLdScanFuel (html.data.length + 1) html.data).map (fun cs => ⟨cs⟩)

/-- `match.replace(/<script[^>]*>|<\/script>/gi, '')`: every `<script…>`
opener (through its first `'>'`) and every `</script>` closer is deleted. -/
def stripScriptTagChars : ℕ → List Char → List Char
  | 0, _ => []
  | _, [] => []
  | fuel + 1, c :: rest =>
    if ciPrefOf openScriptL (c :: rest) then
      match takeUntilGt (c :: rest) with
      | some (_, after) => stripScriptTagChars fuel after
      | none => c :: stripScriptTagChars fuel rest
    else if ciPrefOf closeScriptL (c :: rest) then
      stripScriptTagChars fuel ((c :: rest).drop 9)
    else c :: stripScriptTagChars fuel rest

/-- String version of `stripScriptTagChars`, at fuel `length + 1` (every
step consumes at least one character, so the fuel never runs out). -/
def stripScriptTags (s : String) : String :=
  ⟨stripScriptTagChars (s.data.length + 1) s.data⟩
/-! ## A model of `JSON.parse`

`extractSchemaMarkup` feeds each located block to `JSON.parse` inside a
`try`/`catch`; an exception is modelled as `none`.  The grammar below is the
strict JSON grammar that `JSON.parse` implements. -/

/-- A parsed JSON value. -/
inductive Json where
  | null : Json
  | bool (b : Bool) : Json
  | num (q : ℚ) : Json
  | str (s : String) : Json
  | arr (items : List Json) : Json
  | obj (fields : List (String × Json)) : Json

/-- JS truthiness of a JSON value (`null`, `false`, `0`, `""` are falsy;
arrays and objects are always truthy). -/
def jsTruthy : Json → Bool
  | .null => false
  | .bool b => b
  | .num q => !(q == 0)
  | .str s => !s.isEmpty
  | .arr _ => true
  | .obj _ => true

/-- Property access `j[k]` (`none` = `undefined`); on duplicate keys the
later one wins, as with `JSON.parse`. Non-objects have no own properties. -/
def jsonGet : Json → String → Option Json
  | .obj fs, k => (fs.reverse.find? (fun p => p.1 == k)).map (·.2)
  | _, _ => none

/-- Strict equality `j === s` against a string literal. -/
def jsEqStr : Json → String → Bool
  | .str t, s => t == s
  | _, _ => false

/-- JSON whitespace (the four characters the JSON grammar allows). -/
def isJsonWs (c : Char) : Bool :=
  c == ' ' || c == '\t' || c == '\n' || c == '\r'

/-- Skip JSON whitespace. -/
def skipJsonWs (cs : List Char) : List Char := cs.dropWhile isJsonWs

/-- Hexadecimal digit value (by code point: digits, then the lower-case and
upper-case letter ranges). -/
def hexVal (c : Char) : Option ℕ :=
  let n := c.toNat
  if 48 ≤ n && n ≤ 57 then some (n - 48)
  else if 97 ≤ n && n ≤ 102 then some (n - 87)
  else if 65 ≤ n && n ≤ 70 then some (n - 55)
  else none

/-- Parse the four hex digits of a `\uXXXX` escape. -/
def parseHex4 : List Char → Option (ℕ × List Char)
  | c1 :: c2 :: c3 :: c4 :: rest =>
    match hexVal c1, hexVal c2, hexVal c3, hexVal c4 with
    | some v1, some v2, some v3, some v4 =>
      some (((v1 * 16 + v2) * 16 + v3) * 16 + v4, rest)
    | _, _, _, _ => none
  | _ => none

/-- Parse the remainder of a JSON string literal (after the opening quote).
Control characters below `U+0020` are rejected, escapes are decoded. -/
def parseJsonString (fuel : ℕ) : List Char → Option (List Char × List Char)
  | [] => none
  | c :: rest =>
    match fuel with
    | 0 => none
    | fuel + 1 =>
      if c == '"' then some ([], rest)
      else if c == '\\' then
        match rest with
        | [] => none
        | e :: rest2 =>
          let cont (ch : Char) (rs : List Char) :
              Option (List Char × List Char) :=
            (parseJsonString fuel rs).map (fun p => (ch :: p.1, p.2))
          if e == '"' then cont '"' rest2
          else if e == '\\' then cont '\\' rest2
          else if e == '/' then cont '/' rest2
          else if e == 'b' then cont '\x08' rest2
          else if e == 'f' then cont '\x0c' rest2
          else if e == 'n' then cont '\n' rest2
          else if e == 'r' then cont '\x0d' rest2
          else if e == 't' then cont '\t' rest2
          else if e == 'u' then
            match parseHex4 rest2 with
            | some (v, rest3) => cont (Char.ofNat v) rest3
            | none => none
          else none
      else if c.toNat < 0x20 then none
      else (parseJsonString fuel rest).map (fun p => (c :: p.1, p.2))

/-- One or more decimal digits; returns their value and the rest. -/
def parseDigits : List Char → Option (ℕ × ℕ × List Char) :=
  fun cs =>
    let digits := cs.takeWhile (fun c => '0' ≤ c && c ≤ '9')
    if digits.isEmpty then none
    else
      some (digits.foldl (fun acc c => acc * 10 + (c.toNat - '0'.toNat)) 0,
        digits.length, cs.drop digits.length)

/-- Parse a JSON number (strict grammar:
`-?(0|[1-9][0-9]*)(\.[0-9]+)?([eE][+-]?[0-9]+)?`). -/
def parseJsonNumber (cs : List Char) : Option (ℚ × List Char) := do
  let (sign, cs1) :=
    match cs with
    | '-' :: rest => ((-1 : ℚ), rest)
    | _ => ((1 : ℚ), cs)
  -- integer part: 0, or a nonzero digit followed by digits
  let (intPart, cs2) ←
    match cs1 with
    | '0' :: rest => some ((0 : ℕ), rest)
    | c :: _ =>
      if '1' ≤ c && c ≤ '9' then
        (parseDigits cs1).map (fun t => (t.1, t.2.2))
      else none
    | [] => none
  let (frac, fracLen, cs3) ←
    match cs2 with
    | '.' :: rest =>
      (parseDigits rest).map (fun t => (t.1, t.2.1, t.2.2))
    | _ => some ((0 : ℕ), (0 : ℕ), cs2)
  let (exp, cs4) ←
    match cs3 with
    | c :: rest =>
      if c == 'e' || c == 'E' then
        match rest with
        | '-' :: rest2 => (parseDigits rest2).map (fun t => (-(t.1 : ℤ), t.2.2))
        | '+' :: rest2 => (parseDigits rest2).map (fun t => ((t.1 : ℤ), t.2.2))
        | _ => (parseDigits rest).map (fun t => ((t.1 : ℤ), t.2.2))
      else some ((0 : ℤ), cs3)
    | [] => some ((0 : ℤ), cs3)
  let mantissa : ℚ := (intPart : ℚ) + (frac : ℚ) / ((10 : ℚ) ^ fracLen)
  pure (sign * mantissa * (10 : ℚ) ^ exp, cs4)

mutual

/-- Parse one JSON value (leading whitespace allowed). -/
def parseJsonValue (fuel : ℕ) (cs : List Char) :
    Option (Json × List Char) :=
  match fuel with
  | 0 => none
  | fuel + 1 =>
    match skipJsonWs cs with
    | [] => none
    | c :: rest =>
      if c == '{' then
        match skipJsonWs rest with
        | '}' :: rest2 => some (.obj [], rest2)
        | _ => (parseJsonMembers fuel rest).map
            (fun p => (.obj p.1, p.2))
      else if c == '[' then
        match skipJsonWs rest with
        | ']' :: rest2 => some (.arr [], rest2)
        | _ => (parseJsonItems fuel rest).map
            (fun p => (.arr p.1, p.2))
      else if c == '"' then
        (parseJsonString fuel rest).map (fun p => (.str ⟨p.1⟩, p.2))
      else if c == 't' then
        if lcChars "rue" |>.isPrefixOf rest then some (.bool true, rest.drop 3)
        else none
      else if c == 'f' then
        if lcChars "alse" |>.isPrefixOf rest then
          some (.bool false, rest.drop 4)
        else none
      else if c == 'n' then
        if lcChars "ull" |>.isPrefixOf rest then some (.null, rest.drop 3)
        else none
      else
        (parseJsonNumber (c :: rest)).map (fun p => (.num p.1, p.2))

/-- Parse the members of an object (after `{`, at least one member). -/
def parseJsonMembers (fuel : ℕ) (cs : List Char) :
    Option (List (String × Json) × List Char) :=
  match fuel with
  | 0 => none
  | fuel + 1 =>
    match skipJsonWs cs with
    | '"' :: rest =>
      match parseJsonString fuel rest with
      | some (key, rest2) =>
        match skipJsonWs rest2 with
        | ':' :: rest3 =>
          match parseJsonValue fuel rest3 with
          | some (v, rest4) =>
            match skipJsonWs rest4 with
            | ',' :: rest5 =>
              (parseJsonMembers fuel rest5).map
                (fun p => ((⟨key⟩, v) :: p.1, p.2))
            | '}' :: rest5 => some ([(⟨key⟩, v)], rest5)
            | _ => none
          | none => none
        | _ => none
      | none => none
    | _ => none

/-- Parse the items of an array (after `[`, at least one item). -/
def parseJsonItems (fuel : ℕ) (cs : List Char) :
    Option (List Json × List Char) :=
  match fuel with
  | 0 => none
  | fuel + 1 =>
    match parseJsonValue fuel cs with
    | some (v, rest) =>
      match skipJsonWs rest with
      | ',' :: rest2 => (parseJsonItems fuel rest2).map
          (fun p => (v :: p.1, p.2))
      | ']' :: rest2 => some ([v], rest2)
      | _ => none
    | none => none

end

/-- `JSON.parse(content)`: `none` models a thrown `SyntaxError`.  The fuel
`content.length + 1` is enough for any input, since every recursive step
consumes at least one character. -/
def jsonParse (content : String) : Option Json :=
  match parseJsonValue (content.length + 1) content.data with
  | some (j, rest) => if (skipJsonWs rest).isEmpty then some j else none
  | none => none

/-! ## Signal extraction: structured data (`extractSchemaMarkup`) -/

/-- One entry of `schemaMarkup.schemas`
(`{ type: 'JSON-LD', schemaType: parsed['@type'] || 'Unknown', data: parsed }`). -/
structure SchemaEntry where
  type : String
  schemaType : Json
  data : Json

/-- The `schemaMarkup` summary returned by `extractSchemaMarkup`. -/
structure SchemaMarkup where
  found : Bool
  count : ℕ
  schemas : List SchemaEntry
  hasLocalBusiness : Bool
  hasFAQSchema : Bool
  hasReviewSchema : Bool
  hasServiceSchema : Bool

/-- `parsed['@type'] || 'Unknown'` for a successfully parsed block. -/
def schemaTypeOf (parsed : Json) : Json :=
  match jsonGet parsed "@type" with
  | some v => if jsTruthy v then v else .str "Unknown"
  | none => .str "Unknown"

/-- Processing of one matched block inside the `try`: strip the script tags,
`JSON.parse` the content, and build the schema entry.  `none` models the
swallowed exception (parse failure, or the `TypeError` thrown by
`parsed['@type']` when `JSON.parse` returned `null`), which skips the
block. -/
def parsedSchemaEntry (block : String) : Option SchemaEntry :=
  match jsonParse (stripScriptTags block) with
  | none => none
  | some .null => none
  | some parsed => some ⟨"JSON-LD", schemaTypeOf parsed, parsed⟩

/-- `extractSchemaMarkup(html)` (route.js:389-436). -/
def extractSchemaMarkup (html : String) : SchemaMarkup :=
  let schemas := (jsonLdMatches html).filterMap parsedSchemaEntry
  let hasLocalBusiness := schemas.any (fun s =>
    jsEqStr s.schemaType "LocalBusiness" ||
    jsEqStr s.schemaType "Organization" ||
    jsEqStr s.schemaType "ProfessionalService")
  let hasFAQSchema := schemas.any (fun s => jsEqStr s.schemaType "FAQPage")
  let hasReviewSchema := schemas.any (fun s =>
    jsEqStr s.schemaType "Review" ||
    jsEqStr s.schemaType "AggregateRating")
  let hasServiceSchema := schemas.any (fun s =>
    jsEqStr s.schemaType "Service" ||
    jsEqStr s.schemaType "Product")
  { found := schemas.length > 0
    count := schemas.length
    schemas := schemas
    hasLocalBusiness := hasLocalBusiness
    hasFAQSchema := hasFAQSchema
    hasReviewSchema := hasReviewSchema
    hasServiceSchema := hasServiceSchema }

/-! ## Signal extraction: feature detectors

Each detector keeps a registry of `(label, pattern)` pairs; `detected`
collects the labels whose pattern matches, in registry order (the source
writes one `if`/`push` per vendor, which is the same thing). -/

/-- `/intercom\.com\/widget|window\.Intercom|intercomSettings/i` -/
def intercomPat (html : String) : Bool :=
  ciContains html "intercom.com/widget" || ciContains html "window.Intercom" ||
    ciContains html "intercomSettings"

/-- `/drift\.com|js\.driftt\.com|window\.drift|drift\s*=\s*window\.drift/i` -/
def driftPat (html : String) : Bool :=
  ciContains html "drift.com" || ciContains html "js.driftt.com" ||
    ciContains html "window.drift" ||
    ciTokSeq html ["drift", "=", "window.drift"]

/-- `/js\.hs-scripts\.com|hs-script-loader|hubspot.*conversations|HubSpotConversations/i` -/
def hubspotPat (html : String) : Bool :=
  ciContains html "js.hs-scripts.com" || ciContains html "hs-script-loader" ||
    ciSeqNoNl html "hubspot" "conversations" ||
    ciContains html "HubSpotConversations"

/-- `/static\.zdassets\.com|zopim|zendesk.*chat|zE\s*\(|zESettings/i` -/
def zendeskPat (html : String) : Bool :=
  ciContains html "static.zdassets.com" || ciContains html "zopim" ||
    ciSeqNoNl html "zendesk" "chat" || ciTokSeq html ["zE", "("] ||
    ciContains html "zESettings"

/-- `/cdn\.livechatinc\.com|__lc\s*=|livechatinc\.com\/tracking/i` -/
def livechatPat (html : String) : Bool :=
  ciContains html "cdn.livechatinc.com" || ciTokSeq html ["__lc", "="] ||
    ciContains html "livechatinc.com/tracking"

/-- `/code\.tidio\.co|tidioChatCode|tidio_chat/i` -/
def tidioPat (html : String) : Bool :=
  ciContains html "code.tidio.co" || ciContains html "tidioChatCode" ||
    ciContains html "tidio_chat"

/-- `/client\.crisp\.chat|window\.\$crisp|CRISP_WEBSITE_ID/i` -/
def crispPat (html : String) : Bool :=
  ciContains html "client.crisp.chat" || ciContains html "window.$crisp" ||
    ciContains html "CRISP_WEBSITE_ID"

/-- `/wchat\.freshchat\.com|freshchat\.min\.js|fcWidget/i` -/
def freshchatPat (html : String) : Bool :=
  ciContains html "wchat.freshchat.com" || ciContains html "freshchat.min.js" ||
    ciContains html "fcWidget"

/-- `/embed\.tawk\.to|Tawk_API|tawk\.to/i` -/
def tawkPat (html : String) : Bool :=
  ciContains html "embed.tawk.to" || ciContains html "Tawk_API" ||
    ciContains html "tawk.to"

/-- `/static\.olark\.com|olark\.identify|olark\s*\(/i` -/
def olarkPat (html : String) : Bool :=
  ciContains html "static.olark.com" || ciContains html "olark.identify" ||
    ciTokSeq html ["olark", "("]

/-- `/call\.chatra\.io|ChatraID|window\.ChatraSetup/i` -/
def chatraPat (html : String) : Bool :=
  ciContains html "call.chatra.io" || ciContains html "ChatraID" ||
    ciContains html "window.ChatraSetup"

/-- `/code\.jivosite\.com|jivo_api|jivosite/i` -/
def jivoPat (html : String) : Bool :=
  ciContains html "code.jivosite.com" || ciContains html "jivo_api" ||
    ciContains html "jivosite"

/-- `/smartsupp\.com\/loader|smartsupp\s*\(|_smartsupp/i` -/
def smartsuppPat (html : String) : Bool :=
  ciContains html "smartsupp.com/loader" || ciTokSeq html ["smartsupp", "("] ||
    ciContains html "_smartsupp"

/-- `/salesiq\.zoho\.com|zoho.*salesiq|\$zoho.*salesiq/i` -/
def zohoPat (html : String) : Bool :=
  ciContains html "salesiq.zoho.com" || ciSeqNoNl html "zoho" "salesiq" ||
    ciSeqNoNl html "$zoho" "salesiq"

/-- `/connect\.facebook\.net.*customerchat|fb-customerchat|MessengerExtensions/i` -/
def messengerPat (html : String) : Bool :=
  ciSeqNoNl html "connect.facebook.net" "customerchat" ||
    ciContains html "fb-customerchat" || ciContains html "MessengerExtensions"

/-- `/cdn\.chatbot\.com|chatbot\.com\/widget/i` -/
def chatbotComPat (html : String) : Bool :=
  ciContains html "cdn.chatbot.com" || ciContains html "chatbot.com/widget"

/-- `/cdn\.voiceflow\.com|voiceflow.*widget/i` -/
def voiceflowPat (html : String) : Bool :=
  ciContains html "cdn.voiceflow.com" || ciSeqNoNl html "voiceflow" "widget"

/-- `/cdn\.botpress\.cloud|botpress.*webchat/i` -/
def botpressPat (html : String) : Bool :=
  ciContains html "cdn.botpress.cloud" || ciSeqNoNl html "botpress" "webchat"

/-- `/cdn\.landbot\.io|landbot.*widget/i` -/
def landbotPat (html : String) : Bool :=
  ciContains html "cdn.landbot.io" || ciSeqNoNl html "landbot" "widget"

/-- The chatbot detector registry, in source order (route.js:192-288). -/
def chatbotRegistry : List (String × (String → Bool)) :=
  [("Intercom", intercomPat), ("Drift", driftPat),
   ("HubSpot Chat", hubspotPat), ("Zendesk Chat", zendeskPat),
   ("LiveChat", livechatPat), ("Tidio", tidioPat), ("Crisp", crispPat),
   ("Freshchat", freshchatPat), ("Tawk.to", tawkPat), ("Olark", olarkPat),
   ("Chatra", chatraPat), ("JivoChat", jivoPat), ("Smartsupp", smartsuppPat),
   ("Zoho SalesIQ", zohoPat), ("Facebook Messenger", messengerPat),
   ("Chatbot.com", chatbotComPat), ("Voiceflow", voiceflowPat),
   ("Botpress", botpressPat), ("Landbot", landbotPat)]

/-- A chatbot / voice-agent detection result. -/
structure Detection where
  detected : Bool
  providers : List String
  confidence : String

/-- `checkForChatbot(html)` (route.js:192-295). -/
def checkForChatbot (html : String) : Detection :=
  let detected := (chatbotRegistry.filter (fun v => v.2 html)).map (·.1)
  { detected := detected.length > 0
    providers := detected
    confidence := if detected.length > 0 then "high" else "none" }

/-- `/vapi\.ai|cdn\.vapi\.ai|vapiSDK|vapi-widget/i` -/
def vapiPat (html : String) : Bool :=
  ciContains html "vapi.ai" || ciContains html "cdn.vapi.ai" ||
    ciContains html "vapiSDK" || ciContains html "vapi-widget"

/-- `/bland\.ai|api\.bland\.ai|bland-widget/i` -/
def blandPat (html : String) : Bool :=
  ciContains html "bland.ai" || ciContains html "api.bland.ai" ||
    ciContains html "bland-widget"

/-- `/retell\.ai|retellai|retell-widget/i` -/
def retellPat (html : String) : Bool :=
  ciContains html "retell.ai" || ciContains html "retellai" ||
    ciContains html "retell-widget"

/-- `/synthflow\.ai|synthflow-widget/i` -/
def synthflowPat (html : String) : Bool :=
  ciContains html "synthflow.ai" || ciContains html "synthflow-widget"

/-- `/vocode\.dev|vocode-widget/i` -/
def vocodePat (html : String) : Bool :=
  ciContains html "vocode.dev" || ciContains html "vocode-widget"

/-- `/play\.ht|playht.*widget/i` -/
def playhtPat (html : String) : Bool :=
  ciContains html "play.ht" || ciSeqNoNl html "playht" "widget"

/-- `/elevenlabs\.io|elevenlabs-widget|elevenlabs-convai/i` -/
def elevenlabsPat (html : String) : Bool :=
  ciContains html "elevenlabs.io" || ciContains html "elevenlabs-widget" ||
    ciContains html "elevenlabs-convai"

/-- `/air\.ai|airai-widget/i` -/
def airaiPat (html : String) : Bool :=
  ciContains html "air.ai" || ciContains html "airai-widget"

/-- The voice-agent detector registry, in source order (route.js:298-339). -/
def voiceRegistry : List (String × (String → Bool)) :=
  [("Vapi.ai", vapiPat), ("Bland.ai", blandPat), ("Retell AI", retellPat),
   ("Synthflow", synthflowPat), ("Vocode", vocodePat), ("PlayHT", playhtPat),
   ("ElevenLabs", elevenlabsPat), ("Air AI", airaiPat)]

/-- `checkForVoiceAgent(html)` (route.js:298-349). -/
def checkForVoiceAgent (html : String) : Detection :=
  let detected := (voiceRegistry.filter (fun v => v.2 html)).map (·.1)
  { detected := detected.length > 0
    providers := detected
    confidence := if detected.length > 0 then "high" else "none" }

/-- Anchored test for `attr["'][^"']*(?:kw…)[^"']*["']` (e.g.
`class=["'][^"']*(?:calculator-widget|…)[^"']*["']`): the attribute name and
an opening quote, then one of the keywords within the quote-free span, then a
closing quote (the two `["']` classes are independent). Operates on
lower-cased text. -/
def attrKwAt (attr : List Char) (kws : List (List Char)) (cs : List Char) :
    Bool :=
  attr.isPrefixOf cs &&
    (match cs.drop attr.length with
     | q1 :: rest =>
       (q1 == '"' || q1 == '\'') &&
         (let span := rest.takeWhile (fun c => !(c == '"' || c == '\''))
          kws.any (fun k => hasSub k span) &&
            !(rest.drop span.length).isEmpty)
     | [] => false)

/-- `attr["'][^"']*(?:kw…)[^"']*["']` anywhere, case-insensitively. -/
def ciAttrKw (html : String) (attr : String) (kws : List String) : Bool :=
  anyPos (attrKwAt (lcChars attr) (kws.map lcChars)) (lcChars html)

/-- `/<form[^>]*(?:calculator|quote|estimate|pricing)[^>]*>[\s\S]*?<input[\s\S]*?<\/form>/i`:
a `<form` tag whose `'>'`-free attribute region mentions one of the
keywords, followed (anywhere later) by `<input` and then `</form>`. -/
def calcFormPat (html : String) : Bool :=
  anyPos
    (fun cs =>
      (lcChars "<form").isPrefixOf cs &&
        (match takeUntilGt cs with
         | some (region, after) =>
           ([lcChars "calculator", lcChars "quote", lcChars "estimate",
             lcChars "pricing"].any (fun k => hasSub k region)) &&
             seqAnywhere (lcChars "<input") (lcChars "</form>") after
         | none => false))
    (lcChars html)

/-- `/class=["'][^"']*(?:calculator-widget|quote-calculator|price-calculator|cost-calculator|roi-calculator)[^"']*["']/i` -/
def calcWidgetPat (html : String) : Bool :=
  ciAttrKw html "class="
    ["calculator-widget", "quote-calculator", "price-calculator",
     "cost-calculator", "roi-calculator"]

/-- `/(?:calculator|calcWidget|quoteCalculator|pricingCalculator)\.(?:js|min\.js)/i` -/
def calcScriptPat (html : String) : Bool :=
  anyPos
    (fun cs =>
      [lcChars "calculator", lcChars "calcWidget", lcChars "quoteCalculator",
       lcChars "pricingCalculator"].any
        (fun w =>
          w.isPrefixOf cs &&
            ((lcChars ".js").isPrefixOf (cs.drop w.length) ||
              (lcChars ".min.js").isPrefixOf (cs.drop w.length))))
    (lcChars html)

/-- `/calconic\.com|outgrow\.co|calculoid\.com|ucalc\.pro/i` -/
def calcPlatformPat (html : String) : Bool :=
  ciContains html "calconic.com" || ciContains html "outgrow.co" ||
    ciContains html "calculoid.com" || ciContains html "ucalc.pro"

/-- `/id=["'][^"']*(?:calculator|quote-form|pricing-calculator|cost-estimate)[^"']*["']/i` -/
def calcIdPat (html : String) : Bool :=
  ciAttrKw html "id="
    ["calculator", "quote-form", "pricing-calculator", "cost-estimate"]

/-- `/typeform\.com|jotform\.com.*(?:quote|estimate|calculator)/i` -/
def calcTypeformPat (html : String) : Bool :=
  ciContains html "typeform.com" || ciSeqNoNl html "jotform.com" "quote" ||
    ciSeqNoNl html "jotform.com" "estimate" ||
    ciSeqNoNl html "jotform.com" "calculator"

/-- A calculator/quote-tool detection result. -/
structure CalcDetection where
  detected : Bool
  types : List String
  confidence : String

/-- `checkForCalculator(html)` (route.js:352-386). -/
def checkForCalculator (html : String) : CalcDetection :=
  let hasCalcForm := calcFormPat html
  let hasCalcWidget := calcWidgetPat html
  let hasCalcScript := calcScriptPat html
  let detected : List String :=
    (if calcPlatformPat html then ["Third-party Calculator Tool"] else []) ++
    (if calcIdPat html then ["Custom Calculator"] else []) ++
    (if calcTypeformPat html then ["Interactive Quote Form"] else [])
  let detected :=
    if (hasCalcForm || hasCalcWidget || hasCalcScript) && detected.isEmpty
    then ["Calculator/Quote Tool"] else detected
  { detected := detected.length > 0
    types := detected
    confidence := if detected.length > 0 then "medium" else "none" }

/-- Any pattern of the calculator detector matched (the disjunction of all
its registry patterns). -/
def calcAnyPattern (html : String) : Bool :=
  calcPlatformPat html || calcIdPat html || calcTypeformPat html ||
    calcFormPat html || calcWidgetPat html || calcScriptPat html

/-! ## The scraped page data

`scrapeWebsiteData` either returns the parsed signal object or
`{ error: message }`.  The signal-level fields are modelled as data so the
scorer theorems quantify over every possible extraction result; the concrete
extractors for meta tags, headings, FAQ keywords, local-business info and AEO
indicators only populate these fields and are not themselves needed by any
claim, except for `extractSchemaMarkup` and the feature detectors above. -/

/-- `extractMetaTags` output: each field is the first regex match or `null`. -/
structure MetaTags where
  title : Option String
  description : Option String
  ogTitle : Option String
  ogDescription : Option String
  canonical : Option String
  robots : Option String

/-- `extractHeadings` output. -/
structure Headings where
  h1 : List String
  h2 : List String
  h3 : List String

/-- `extractLocalBusinessInfo` output. -/
structure LocalBusinessInfo where
  phone : Option String
  hasAddress : Bool
  hasHours : Bool

/-- `checkForReviews` output. -/
structure Reviews where
  detected : Bool
  hasStarRating : Bool

/-- `checkAEOIndicators` output: the ten boolean AEO/GEO flags. -/
structure AEOIndicators where
  hasDefinitiveStatements : Bool
  hasQAFormat : Bool
  hasStructuredLists : Bool
  hasServiceDescriptions : Bool
  hasLocalKeywords : Bool
  hasExpertiseIndicators : Bool
  hasProcessDescription : Bool
  hasComparisonContent : Bool
  hasStatistics : Bool
  hasAuthorAttribution : Bool

/-- The successfully scraped page data (route.js:156-182). -/
structure PageData where
  html : String
  headers : Headers
  hasHttps : Bool
  hasChatbot : Detection
  hasVoiceAgent : Detection
  hasCalculator : CalcDetection
  schemaMarkup : SchemaMarkup
  metaTags : MetaTags
  headings : Headings
  hasFAQ : Bool
  localBusinessInfo : LocalBusinessInfo
  hasReviews : Reviews
  aeoIndicators : AEOIndicators

/-- The result of `scrapeWebsiteData`: the data object, or `{ error }` on a
fetch failure. -/
inductive RawPageData where
  | err (message : String) : RawPageData
  | ok (d : PageData) : RawPageData

/-- `data.html || ''` (the error object has no `html` property). -/
def htmlOf : RawPageData → String
  | .err _ => ""
  | .ok d => d.html

/-- `data.headers` as an optional property: `undefined` on the error object,
always a (truthy) object otherwise. -/
def headersOpt : RawPageData → Option Headers
  | .err _ => none
  | .ok d => some d.headers

/-- `data.headers || {}`. -/
def headersOrEmpty : RawPageData → Headers
  | .err _ => []
  | .ok d => d.headers

/-! ## HTML matchers used inside the Accessibility and Security scorers -/

/-- Consume an exact (already lower-cased) literal. -/
def expectLit (p : List Char) (cs : List Char) : Option (List Char) :=
  if p.isPrefixOf cs then some (cs.drop p.length) else none

/-- Consume one exact character. -/
def expectChar (c : Char) : List Char → Option (List Char)
  | c2 :: rest => if c2 == c then some rest else none
  | [] => none

/-- Not a quote character (the `[^"']` class). -/
def notQuote (c : Char) : Bool := !(c == '"' || c == '\'')

/-- `html.match(/<img[^>]*>/gi) || []`: all image tags (original case). -/
def imgTagsOf (html : String) : List (List Char) :=
  scanTags (lcChars "<img") html.data

/-- `/alt\s*=\s*["'][^"']+["']/i.test(img)`: a non-empty, quoted `alt`
attribute value somewhere in the tag. -/
def hasAltAttr (tag : List Char) : Bool :=
  anyPos
    (fun cs =>
      (lcChars "alt").isPrefixOf cs &&
        (match skipWs (cs.drop 3) with
         | '=' :: r2 =>
           (match skipWs r2 with
            | q :: r3 =>
              (q == '"' || q == '\'') &&
                (let span := r3.takeWhile notQuote
                 !span.isEmpty && !(r3.drop span.length).isEmpty)
            | [] => false)
         | _ => false))
    (tag.map Char.toLower)

/-- `html.match(/<img[^>]*>/gi).filter(img => /alt\s*=\s*["'][^"']+["']/i.test(img))`. -/
def imgsWithAltOf (html : String) : List (List Char) :=
  (imgTagsOf html).filter hasAltAttr

/-- `imgTags.length > 0 ? imgsWithAlt.length / imgTags.length : 1`. -/
def altRatioOf (html : String) : ℚ :=
  if (imgTagsOf html).length > 0 then
    ((imgsWithAltOf html).length : ℚ) / ((imgTagsOf html).length : ℚ)
  else 1

/-- `/<h1[^>]*>/i.test(html)`. -/
def hasH1Of (html : String) : Bool :=
  anyPos
    (fun cs => (lcChars "<h1").isPrefixOf cs && (takeUntilGt cs).isSome)
    (lcChars html)

/-- `(html.match(/<h1[^>]*>/gi) || []).length`. -/
def h1CountOf (html : String) : ℕ := (scanTags (lcChars "<h1") html.data).length

/-- Anchored `type\s*=\s*["'](text|email|tel|password|search|number)["']`
test (on lower-cased text). -/
def inputTypeAt (cs : List Char) : Bool :=
  (lcChars "type").isPrefixOf cs &&
    (match skipWs (cs.drop 4) with
     | '=' :: r2 =>
       (match skipWs r2 with
        | q :: r3 =>
          (q == '"' || q == '\'') &&
            ([lcChars "text", lcChars "email", lcChars "tel",
              lcChars "password", lcChars "search", lcChars "number"].any
              (fun w =>
                w.isPrefixOf r3 &&
                  (match r3.drop w.length with
                   | q2 :: _ => q2 == '"' || q2 == '\''
                   | [] => false)))
        | [] => false)
     | _ => false)

/-- `html.match(/<input[^>]*type\s*=\s*["'](text|email|tel|password|search|number)["'][^>]*>/gi) || []`. -/
def formInputsOf (html : String) : List (List Char) :=
  (scanTags (lcChars "<input") html.data).filter
    (fun tag => anyPos inputTypeAt (tag.map Char.toLower))

/-- `/<label[^>]*>/i.test(html)`. -/
def hasLabelsOf (html : String) : Bool :=
  anyPos
    (fun cs => (lcChars "<label").isPrefixOf cs && (takeUntilGt cs).isSome)
    (lcChars html)

/-- `/aria-label\s*=/i.test(html)`. -/
def hasAriaLabelsOf (html : String) : Bool := ciTokSeq html ["aria-label", "="]

/-- The optional `[- ]?` separator of the skip-link pattern: both the
continuation without and (when possible) with one separator character. -/
def skipSepOpt (r : List Char) : List (List Char) :=
  r :: (match r with
        | c :: r2 => if c == '-' || c == ' ' then [r2] else []
        | [] => [])

/-- The `(main|content|nav)` target of the skip-link pattern. -/
def skipTargetAt (r : List Char) : Bool :=
  (lcChars "main").isPrefixOf r || (lcChars "content").isPrefixOf r ||
    (lcChars "nav").isPrefixOf r

/-- `/skip[- ]?(to[- ]?)?(main|content|nav)/i.test(html) || /#(main|content|maincontent)/i.test(html)`. -/
def hasSkipLinkOf (html : String) : Bool :=
  anyPos
    (fun cs =>
      (lcChars "skip").isPrefixOf cs &&
        ((skipSepOpt (cs.drop 4)).any
          (fun r =>
            skipTargetAt r ||
              ((lcChars "to").isPrefixOf r &&
                (skipSepOpt (r.drop 2)).any skipTargetAt))))
    (lcChars html) ||
  ciContains html "#main" || ciContains html "#content" ||
    ciContains html "#maincontent"

/-- `/role\s*=\s*["'](main|navigation|banner|contentinfo|search)["']/i.test(html)`. -/
def hasRoleLandmarkOf (html : String) : Bool :=
  anyPos
    (fun cs =>
      (lcChars "role").isPrefixOf cs &&
        (match skipWs (cs.drop 4) with
         | '=' :: r2 =>
           (match skipWs r2 with
            | q :: r3 =>
              (q == '"' || q == '\'') &&
                ([lcChars "main", lcChars "navigation", lcChars "banner",
                  lcChars "contentinfo", lcChars "search"].any
                  (fun w =>
                    w.isPrefixOf r3 &&
                      (match r3.drop w.length with
                       | q2 :: _ => q2 == '"' || q2 == '\''
                       | [] => false)))
            | [] => false)
         | _ => false))
    (lcChars html)

/-- `/<(main|nav|header|footer|aside)[^>]*>/i.test(html)`. -/
def hasLandmarkTagOf (html : String) : Bool :=
  anyPos
    (fun cs =>
      ([lcChars "<main", lcChars "<nav", lcChars "<header", lcChars "<footer",
        lcChars "<aside"].any (fun t => t.isPrefixOf cs)) &&
        (takeUntilGt cs).isSome)
    (lcChars html)

/-- `hasLandmarks` of the Accessibility scorer. -/
def hasLandmarksOf (html : String) : Bool :=
  hasRoleLandmarkOf html || hasLandmarkTagOf html

/-- One `(2[3-5]\d|25[0-5])` colour component (three characters). -/
def rgbNumAt : List Char → Option (List Char)
  | c1 :: c2 :: c3 :: rest =>
    if (c1 == '2' && ('3' ≤ c2 && c2 ≤ '5') && ('0' ≤ c3 && c3 ≤ '9')) ||
        (c1 == '2' && c2 == '5' && ('0' ≤ c3 && c3 ≤ '5')) then some rest
    else none
  | _ => none

/-- Anchored `color\s*:\s*rgb\s*\(\s*NUM\s*,\s*NUM\s*,\s*NUM\s*\)` test. -/
def colorRgbAt (cs : List Char) : Bool :=
  (do
    let r1 ← expectLit (lcChars "color") cs
    let r2 ← expectChar ':' (skipWs r1)
    let r3 ← expectLit (lcChars "rgb") (skipWs r2)
    let r4 ← expectChar '(' (skipWs r3)
    let r5 ← rgbNumAt (skipWs r4)
    let r6 ← expectChar ',' (skipWs r5)
    let r7 ← rgbNumAt (skipWs r6)
    let r8 ← expectChar ',' (skipWs r7)
    let r9 ← rgbNumAt (skipWs r8)
    let _ ← expectChar ')' (skipWs r9)
    pure ()).isSome

/-- `hasLightText`: `/color\s*:\s*#[ef]{3,6}/i.test(html) || /color\s*:\s*rgb\s*\(\s*(2[3-5]\d|25[0-5])\s*,…\)/i.test(html)`. -/
def hasLightTextOf (html : String) : Bool :=
  anyPos
    (fun cs =>
      (lcChars "color").isPrefixOf cs &&
        (match skipWs (cs.drop 5) with
         | ':' :: r2 =>
           (match skipWs r2 with
            | '#' :: r3 =>
              3 ≤ (r3.takeWhile (fun c => c == 'e' || c == 'f')).length
            | _ => false)
         | _ => false))
    (lcChars html) ||
  anyPos colorRgbAt (lcChars html)

/-- `hasFocusStyles`: `/:focus/i.test(html) || /outline/i.test(html)`. -/
def hasFocusStylesOf (html : String) : Bool :=
  ciContains html ":focus" || ciContains html "outline"

/-- `hasLangAttr`: `/<html[^>]*lang\s*=/i.test(html)`. -/
def hasLangAttrOf (html : String) : Bool :=
  anyPos
    (fun cs =>
      (lcChars "<html").isPrefixOf cs &&
        anyPos
          (fun r =>
            (lcChars "lang").isPrefixOf r &&
              (match skipWs (r.drop 4) with
               | '=' :: _ => true
               | _ => false))
          (takeNoGt (cs.drop 5)))
    (lcChars html)

/-- Resource-URL characters: the `[^"'\s]` class. -/
def resChar (c : Char) : Bool := notQuote c && !isWsChar c

/-- The `(js|css|png|jpg|jpeg|gif|svg|woff|woff2)` extension alternation. -/
def resExts : List (List Char) :=
  [lcChars "js", lcChars "css", lcChars "png", lcChars "jpg", lcChars "jpeg",
   lcChars "gif", lcChars "svg", lcChars "woff", lcChars "woff2"]

/-- After at least one `[^"'\s]` character: keep consuming such characters
until `\.ext` matches. -/
def resExtSearch : List Char → Bool
  | [] => false
  | c :: rest =>
    resExts.any (fun e => ('.' :: e).isPrefixOf (c :: rest)) ||
      (resChar c && resExtSearch rest)

/-- `html.match(/http:\/\/[^"'\s]+\.(js|css|png|jpg|jpeg|gif|svg|woff|woff2)/gi)`
is non-empty. -/
def hasHttpResourcesOf (html : String) : Bool :=
  anyPos
    (fun cs =>
      (lcChars "http://").isPrefixOf cs &&
        (match cs.drop 7 with
         | c :: rest => resChar c && resExtSearch rest
         | [] => false))
    (lcChars html)

/-- `html.match(/src=["']http:\/\//gi)` is non-empty. -/
def hasHttpScriptsOf (html : String) : Bool :=
  anyPos
    (fun cs =>
      (lcChars "src=").isPrefixOf cs &&
        (match cs.drop 4 with
         | q :: rest =>
           (q == '"' || q == '\'') && (lcChars "http://").isPrefixOf rest
         | [] => false))
    (lcChars html)

/-- Zero or more `[^"']` characters, then `\.(css|js)`. -/
def linkExtSearch : List Char → Bool
  | [] => false
  | c :: rest =>
    (lcChars ".css").isPrefixOf (c :: rest) ||
      (lcChars ".js").isPrefixOf (c :: rest) ||
      (notQuote c && linkExtSearch rest)

/-- `html.match(/href=["']http:\/\/[^"']*\.(css|js)/gi)` is non-empty. -/
def hasHttpLinksOf (html : String) : Bool :=
  anyPos
    (fun cs =>
      (lcChars "href=").isPrefixOf cs &&
        (match cs.drop 5 with
         | q :: rest =>
           (q == '"' || q == '\'') &&
             (lcChars "http://").isPrefixOf rest &&
             linkExtSearch (rest.drop 7)
         | [] => false))
    (lcChars html)

/-! ## Category scorers -/

/-- One entry of a `detailedChecks` list (display-only string fields
elided). -/
structure DetailedCheck where
  name : String
  status : String
  score : ℤ
  maxScore : ℤ

/-- A detailed check together with the issues its branch pushes. -/
structure CheckResult where
  check : DetailedCheck
  issues : List String

/-- `analyzeAIReadiness` result (route.js:578-632). -/
structure AIReadinessResult where
  score : ℤ
  issues : List String

/-- `analyzeAIReadiness(data)` (route.js:578-632). -/
def analyzeAIReadiness : RawPageData → AIReadinessResult
  | .err _ => { score := 0, issues := ["Could not analyze website"] }
  | .ok d =>
    let chatbotPts : ℤ := if d.hasChatbot.detected then 30 else 0
    let voicePts : ℤ := if d.hasVoiceAgent.detected then 25 else 0
    let calcPts : ℤ := if d.hasCalculator.detected then 25 else 0
    let schemaPts : ℤ :=
      if d.schemaMarkup.found then
        10 + (if d.schemaMarkup.hasLocalBusiness then 5 else 0) +
          (if d.schemaMarkup.hasFAQSchema then 5 else 0)
      else 0
    { score := min (chatbotPts + voicePts + calcPts + schemaPts) 100
      issues :=
        (if d.hasChatbot.detected then [] else
          ["No AI chatbot detected - missing 24/7 lead qualification"]) ++
        (if d.hasVoiceAgent.detected then [] else
          ["No AI voice agent detected - after-hours calls go unanswered"]) ++
        (if d.hasCalculator.detected then [] else
          ["No instant quote/calculator tool - visitors want immediate answers"]) ++
        (if d.schemaMarkup.found then [] else
          ["No schema markup - AI assistants struggle to understand your business"]) }

/-- AEO/GEO schema-markup check (route.js:656-705): 10 base when any schema
found, +5 LocalBusiness, +5 FAQ; status `good` only when the FAQ schema is
present. -/
def schemaCheckOf (sm : SchemaMarkup) : CheckResult :=
  if sm.found then
    { check :=
        { name := "Schema Markup (Structured Data)"
          status := if sm.hasFAQSchema then "good" else "partial"
          score := 10 + (if sm.hasLocalBusiness then 5 else 0) +
            (if sm.hasFAQSchema then 5 else 0)
          maxScore := 20 }
      issues := [] }
  else
    { check :=
        { name := "Schema Markup (Structured Data)"
          status := "missing", score := 0, maxScore := 20 }
      issues :=
        ["No structured data/schema markup - LLMs cannot easily parse your business info"] }

/-- AEO/GEO FAQ-content check (route.js:708-739): 15/`good` when the FAQ
schema flag is set, 10/`partial` when only textual FAQ content was found,
0/`missing` otherwise. -/
def faqCheckOf (hasFAQ hasFAQSchema : Bool) : CheckResult :=
  if hasFAQ || hasFAQSchema then
    { check :=
        { name := "FAQ Content"
          status := if hasFAQSchema then "good" else "partial"
          score := if hasFAQSchema then 15 else 10
          maxScore := 15 }
      issues := [] }
  else
    { check := { name := "FAQ Content", status := "missing", score := 0,
                 maxScore := 15 }
      issues := ["No FAQ content - missing opportunity for LLMs to extract Q&A"] }

/-- AEO/GEO local-signals check (route.js:742-786): 5 points each for phone,
address and hours. -/
def localCheckOf (lb : LocalBusinessInfo) : CheckResult :=
  let s : ℤ := (if strTruthy lb.phone then 5 else 0) +
    (if lb.hasAddress then 5 else 0) + (if lb.hasHours then 5 else 0)
  { check :=
      { name := "Local Business Signals"
        status := if 10 ≤ s then (if s = 15 then "good" else "partial")
          else "missing"
        score := s, maxScore := 15 }
    issues := if 10 ≤ s then [] else
      ["Weak local signals - LLMs may not recommend you for local searches"] }

/-- AEO/GEO clear-answers check (route.js:789-831): 8 definitive statements,
7 service descriptions, 5 process description. -/
def answersCheckOf (aeo : AEOIndicators) : CheckResult :=
  let s : ℤ := (if aeo.hasDefinitiveStatements then 8 else 0) +
    (if aeo.hasServiceDescriptions then 7 else 0) +
    (if aeo.hasProcessDescription then 5 else 0)
  { check :=
      { name := "Clear, Extractable Content"
        status := if 15 ≤ s then "good" else if 8 ≤ s then "partial"
          else "missing"
        score := s, maxScore := 20 }
    issues := if s < 8 then
      ["Content lacks clear, direct statements LLMs can extract"] else [] }

/-- AEO/GEO expertise check (route.js:834-879): 10 expertise indicators,
5 statistics. -/
def expertiseCheckOf (aeo : AEOIndicators) : CheckResult :=
  let s : ℤ := (if aeo.hasExpertiseIndicators then 10 else 0) +
    (if aeo.hasStatistics then 5 else 0)
  { check :=
      { name := "Expertise & Trust Signals (E-E-A-T)"
        status := if 10 ≤ s then "good" else if 5 ≤ s then "partial"
          else "missing"
        score := s, maxScore := 15 }
    issues := if s < 10 then
      ["Missing expertise indicators that build LLM trust"] else [] }

/-- AEO/GEO structured-content check (route.js:882-921): 8 structured lists,
7 Q&A format. -/
def structureCheckOf (aeo : AEOIndicators) : CheckResult :=
  let s : ℤ := (if aeo.hasStructuredLists then 8 else 0) +
    (if aeo.hasQAFormat then 7 else 0)
  { check :=
      { name := "Structured Content Format"
        status := if 12 ≤ s then "good" else if 5 ≤ s then "partial"
          else "missing"
        score := s, maxScore := 15 }
    issues := if s < 8 then ["Content not structured for LLM parsing"]
      else [] }

/-- `analyzeAEOGEO` result (route.js:635-945); `llmContext` and the
recommendation strings are display-only and elided. -/
structure AEOGEOResult where
  score : ℤ
  issues : List String
  detailedChecks : List DetailedCheck

/-- `analyzeAEOGEO(data, industry, city, companyName)` (route.js:635-945).
The business-context strings only appear inside elided recommendation
text. -/
def analyzeAEOGEO (data : RawPageData) (_industry _city _companyName : String) :
    AEOGEOResult :=
  match data with
  | .err _ => { score := 0, issues := [], detailedChecks := [] }
  | .ok d =>
    let c1 := schemaCheckOf d.schemaMarkup
    let c2 := faqCheckOf d.hasFAQ d.schemaMarkup.hasFAQSchema
    let c3 := localCheckOf d.localBusinessInfo
    let c4 := answersCheckOf d.aeoIndicators
    let c5 := expertiseCheckOf d.aeoIndicators
    let c6 := structureCheckOf d.aeoIndicators
    { score := min (c1.check.score + c2.check.score + c3.check.score +
        c4.check.score + c5.check.score + c6.check.score) 100
      issues := c1.issues ++ c2.issues ++ c3.issues ++ c4.issues ++
        c5.issues ++ c6.issues
      detailedChecks := [c1.check, c2.check, c3.check, c4.check, c5.check,
        c6.check] }

/-- `analyzeSEO` result (route.js:948-1046). -/
structure SEOResult where
  score : ℤ
  issues : List String

/-- SEO title check points (route.js:958-967): 10 for a non-empty title,
+5 when its length is in 30-60. -/
def seoTitlePts (mt : MetaTags) : ℤ :=
  if strTruthy mt.title then
    10 + (if 30 ≤ (mt.title.getD "").length ∧ (mt.title.getD "").length ≤ 60
      then 5 else 0)
  else 0

/-- SEO meta-description points (route.js:970-979): 10 present, +5 when the
length is in 120-160. -/
def seoDescPts (mt : MetaTags) : ℤ :=
  if strTruthy mt.description then
    10 + (if 120 ≤ (mt.description.getD "").length ∧
        (mt.description.getD "").length ≤ 160 then 5 else 0)
  else 0

/-- SEO H1 points (route.js:982-992): 15 for exactly one H1, 5 for several,
0 for none. -/
def seoH1Pts (h : Headings) : ℤ :=
  if h.h1.length = 1 then 15 else if 1 < h.h1.length then 5 else 0

/-- SEO Open Graph points (route.js:1032-1038): 10 when both OG title and
description are present. -/
def seoOgPts (mt : MetaTags) : ℤ :=
  if strTruthy mt.ogTitle && strTruthy mt.ogDescription then 10 else 0

/-- `analyzeSEO(data, pageSpeedData)` (route.js:948-1046). -/
def analyzeSEO : RawPageData → Option PageSpeedData → SEOResult
  | .err _, _ => { score := 0, issues := [] }
  | .ok d, ps =>
    let tOk := strTruthy d.metaTags.title
    let dOk := strTruthy d.metaTags.description
    { score := min (seoTitlePts d.metaTags + seoDescPts d.metaTags +
        seoH1Pts d.headings + (if d.schemaMarkup.found then 15 else 0) +
        (if d.hasHttps then 10 else 0) +
        (if strTruthy d.metaTags.canonical then 10 else 0) +
        (if (1/2 : ℚ) ≤ perfScoreOrZero ps then 10 else 0) +
        seoOgPts d.metaTags) 100
      issues :=
        (if tOk then [] else ["Missing title tag"]) ++
        (if dOk then [] else ["Missing meta description"]) ++
        (if d.headings.h1.length = 1 then []
         else if 1 < d.headings.h1.length then
           ["Multiple H1 tags found (should have exactly one)"]
         else ["Missing H1 tag"]) ++
        (if d.schemaMarkup.found then [] else ["No schema markup detected"]) ++
        (if d.hasHttps then [] else ["Site not using HTTPS"]) ++
        (if strTruthy d.metaTags.canonical then []
         else ["Missing canonical URL"]) ++
        (if (1/2 : ℚ) ≤ perfScoreOrZero ps then []
         else ["Poor mobile performance"]) ++
        (if strTruthy d.metaTags.ogTitle && strTruthy d.metaTags.ogDescription
         then [] else ["Missing Open Graph tags"]) }

/-- Bounds of the four compound SEO point components. -/
theorem seoPts_bounds (mt : MetaTags) (h : Headings) :
    (0 ≤ seoTitlePts mt ∧ seoTitlePts mt ≤ 15) ∧
    (0 ≤ seoDescPts mt ∧ seoDescPts mt ≤ 15) ∧
    (0 ≤ seoH1Pts h ∧ seoH1Pts h ≤ 15) ∧
    (0 ≤ seoOgPts mt ∧ seoOgPts mt ≤ 10) := by
  refine ⟨?_, ?_, ?_, ?_⟩ <;>
    first
      | (unfold seoTitlePts; split_ifs <;> norm_num)
      | (unfold seoDescPts; split_ifs <;> norm_num)
      | (unfold seoH1Pts; split_ifs <;> norm_num)
      | (unfold seoOgPts; split_ifs <;> norm_num)

/-- `analyzeSecurityHeaders` result (route.js:1049-1092). -/
structure SecurityResult where
  score : ℤ
  issues : List String
  hasHttps : Bool

/-- `analyzeSecurityHeaders(url, data)` of the route.js revision
(route.js:1049-1092).  Note that it never inspects the error marker: when
`data.headers` is absent (which is the case on the error object) it simply
awards 30 partial-credit points. -/
def analyzeSecurityHeaders (url : String) (data : RawPageData) :
    SecurityResult :=
  let https := startsWithHttps url
  let httpsPts : ℤ := if https then 40 else 0
  let httpsIssues := if https then [] else ["Not using HTTPS - security risk"]
  match headersOpt data with
  | some hs =>
    let hsts := hdrTruthy hs "strict-transport-security"
    let hstsPts : ℤ := if hsts then 15 else 0
    let xctoPts : ℤ := if hdrTruthy hs "x-content-type-options" then 15 else 0
    let framePts : ℤ :=
      if hdrTruthy hs "x-frame-options" ||
          hdrIncludes hs "content-security-policy" "frame-ancestors"
      then 15 else 0
    let cspPts : ℤ :=
      if hdrTruthy hs "content-security-policy" then 15 else 0
    { score := min (httpsPts + hstsPts + xctoPts + framePts + cspPts) 100
      issues := httpsIssues ++ (if hsts then [] else ["Missing HSTS header"])
      hasHttps := https }
  | none =>
    { score := min (httpsPts + 30) 100
      issues := httpsIssues
      hasHttps := https }

/-! ## The detailed security scorer (part_001:1271-1578) -/

/-- HTTPS check (part_001:1281-1304): 25 points. -/
def httpsCheckD (url : String) : CheckResult :=
  if startsWithHttps url then
    { check := { name := "HTTPS / SSL Certificate", status := "good",
                 score := 25, maxScore := 25 }
      issues := [] }
  else
    { check := { name := "HTTPS / SSL Certificate", status := "missing",
                 score := 0, maxScore := 25 }
      issues := ["Not using HTTPS - customer data is at risk"] }

/-- HSTS check (part_001:1307-1340): 15 points. -/
def hstsCheckD (hs : Headers) : CheckResult :=
  if hdrTruthy hs "strict-transport-security" then
    { check := { name := "HSTS (HTTP Strict Transport Security)",
                 status := "good", score := 15, maxScore := 15 }
      issues := [] }
  else
    { check := { name := "HSTS (HTTP Strict Transport Security)",
                 status := "missing", score := 0, maxScore := 15 }
      issues := ["Missing HSTS header - browsers may connect via insecure HTTP"] }

/-- CSP check (part_001:1343-1378): 15 points, downgraded to 10/`partial`
when the policy contains `unsafe-inline` or `unsafe-eval`. -/
def cspCheckD (hs : Headers) : CheckResult :=
  if hdrTruthy hs "content-security-policy" then
    if hdrIncludes hs "content-security-policy" "unsafe-inline" ||
        hdrIncludes hs "content-security-policy" "unsafe-eval" then
      { check := { name := "Content Security Policy (CSP)",
                   status := "partial", score := 10, maxScore := 15 }
        issues := [] }
    else
      { check := { name := "Content Security Policy (CSP)", status := "good",
                   score := 15, maxScore := 15 }
        issues := [] }
  else
    { check := { name := "Content Security Policy (CSP)",
                 status := "missing", score := 0, maxScore := 15 }
      issues := ["No Content Security Policy - site vulnerable to XSS attacks"] }

/-- Clickjacking check (part_001:1381-1409): 10 points. -/
def frameCheckD (hs : Headers) : CheckResult :=
  if hdrTruthy hs "x-frame-options" ||
      hdrIncludes hs "content-security-policy" "frame-ancestors" then
    { check := { name := "Clickjacking Protection", status := "good",
                 score := 10, maxScore := 10 }
      issues := [] }
  else
    { check := { name := "Clickjacking Protection", status := "missing",
                 score := 0, maxScore := 10 }
      issues := ["No clickjacking protection - site can be embedded in malicious iframes"] }

/-- MIME-sniffing check (part_001:1412-1439): 10 points for the exact value
`nosniff`, 5 for any other non-empty value. -/
def mimeCheckD (hs : Headers) : CheckResult :=
  if hdrGet hs "x-content-type-options" = some "nosniff" then
    { check := { name := "MIME Type Sniffing Protection", status := "good",
                 score := 10, maxScore := 10 }
      issues := [] }
  else if hdrTruthy hs "x-content-type-options" then
    { check := { name := "MIME Type Sniffing Protection", status := "partial",
                 score := 5, maxScore := 10 }
      issues := [] }
  else
    { check := { name := "MIME Type Sniffing Protection", status := "missing",
                 score := 0, maxScore := 10 }
      issues := [] }

/-- Referrer-policy check (part_001:1442-1464): 5 points. -/
def referrerCheckD (hs : Headers) : CheckResult :=
  if hdrTruthy hs "referrer-policy" then
    { check := { name := "Referrer Policy", status := "good", score := 5,
                 maxScore := 5 }
      issues := [] }
  else
    { check := { name := "Referrer Policy", status := "missing", score := 0,
                 maxScore := 5 }
      issues := [] }

/-- Permissions-policy check (part_001:1467-1489): 5 points. -/
def permissionsCheckD (hs : Headers) : CheckResult :=
  if hdrTruthy hs "permissions-policy" || hdrTruthy hs "feature-policy" then
    { check := { name := "Permissions Policy (Feature Policy)",
                 status := "good", score := 5, maxScore := 5 }
      issues := [] }
  else
    { check := { name := "Permissions Policy (Feature Policy)",
                 status := "missing", score := 0, maxScore := 5 }
      issues := [] }

/-- Mixed-content check (part_001:1492-1526): 10 points on an HTTPS page
with no HTTP resources; a non-HTTPS page cannot earn the point
(`partial`, 0). -/
def mixedContentCheckD (url : String) (html : String) : CheckResult :=
  if startsWithHttps url then
    if !hasHttpResourcesOf html && !hasHttpScriptsOf html &&
        !hasHttpLinksOf html then
      { check := { name := "Mixed Content", status := "good", score := 10,
                   maxScore := 10 }
        issues := [] }
    else
      { check := { name := "Mixed Content", status := "missing", score := 0,
                   maxScore := 10 }
        issues := ["Mixed content found - HTTP resources on HTTPS page"] }
  else
    { check := { name := "Mixed Content", status := "partial", score := 0,
                 maxScore := 10 }
      issues := [] }

/-- Server-information check (part_001:1529-1560): 5 points when neither
`Server` nor `X-Powered-By` is exposed, 2 otherwise. -/
def serverInfoCheckD (hs : Headers) : CheckResult :=
  if !hdrTruthy hs "server" && !hdrTruthy hs "x-powered-by" then
    { check := { name := "Server Information Exposure", status := "good",
                 score := 5, maxScore := 5 }
      issues := [] }
  else
    { check := { name := "Server Information Exposure", status := "partial",
                 score := 2, maxScore := 5 }
      issues := [] }

/-- `analyzeSecurityHeaders` result of the detailed revision
(part_001:1271-1578); `grade` and `summary` are display-only and elided. -/
structure SecurityDetailedResult where
  score : ℤ
  issues : List String
  detailedChecks : List DetailedCheck
  hasHttps : Bool

/-- The detailed `analyzeSecurityHeaders(url, data)` (part_001:1271-1578).
Like the route.js version it never inspects the error marker: on the error
object `data.html || ''` and `data.headers || {}` degrade to empty. -/
def analyzeSecurityHeadersDetailed (url : String) (data : RawPageData) :
    SecurityDetailedResult :=
  let html := htmlOf data
  let hs := headersOrEmpty data
  let c1 := httpsCheckD url
  let c2 := hstsCheckD hs
  let c3 := cspCheckD hs
  let c4 := frameCheckD hs
  let c5 := mimeCheckD hs
  let c6 := referrerCheckD hs
  let c7 := permissionsCheckD hs
  let c8 := mixedContentCheckD url html
  let c9 := serverInfoCheckD hs
  { score := min (c1.check.score + c2.check.score + c3.check.score +
      c4.check.score + c5.check.score + c6.check.score + c7.check.score +
      c8.check.score + c9.check.score) 100
    issues := c1.issues ++ c2.issues ++ c3.issues ++ c4.issues ++ c5.issues ++
      c6.issues ++ c7.issues ++ c8.issues ++ c9.issues
    detailedChecks := [c1.check, c2.check, c3.check, c4.check, c5.check,
      c6.check, c7.check, c8.check, c9.check]
    hasHttps := startsWithHttps url }

/-! ## The Accessibility scorer (route.js:1095-1222) -/

/-- One accessibility sub-check: points awarded, the boolean recorded in
`checks`, and the issues its branch pushes. -/
structure AccComponent where
  pts : ℤ
  pass : Bool
  issues : List String

/-- The Lighthouse accessibility contribution
(`Math.round(lighthouseA11yScore * 40)` when the sub-score is present). -/
def lighthousePtsOf (ps : Option PageSpeedData) : ℤ :=
  match a11yScoreOpt ps with
  | none => 0
  | some q => jsRound (q.val * 40)

/-- Alt-text check (route.js:1113-1128): 15 for ratio `≥ 0.9` (which
includes the no-images case, where the ratio is 1), 8 with an issue for
ratio `≥ 0.5`, 0 with an issue below. -/
def altTextCheckOf (html : String) : AccComponent :=
  if (9 : ℚ)/10 ≤ altRatioOf html then ⟨15, true, []⟩
  else if (1 : ℚ)/2 ≤ altRatioOf html then
    ⟨8, false,
      [toString (jsRound ((1 - altRatioOf html) * 100)) ++
        "% of images missing alt text - screen readers cannot describe them"]⟩
  else
    ⟨0, false,
      ["Most images missing alt text - site not accessible to visually impaired users"]⟩

/-- Heading-hierarchy check (route.js:1131-1147): 10 for exactly one H1,
5 when H1s exist (with an issue only when there are several), 0 with an
issue when there is none. -/
def headingCheckOf (html : String) : AccComponent :=
  if hasH1Of html && h1CountOf html == 1 then ⟨10, true, []⟩
  else if hasH1Of html then
    ⟨5, false,
      if 1 < h1CountOf html then
        ["Multiple H1 headings found - confuses screen readers"]
      else []⟩
  else
    ⟨0, false,
      ["No H1 heading found - page structure unclear for assistive technology"]⟩

/-- Form-label check (route.js:1150-1160): 10 when there are no labelled
input types or any label/aria-label exists. -/
def formLabelCheckOf (html : String) : AccComponent :=
  if (formInputsOf html).length = 0 || hasLabelsOf html ||
      hasAriaLabelsOf html then ⟨10, true, []⟩
  else
    ⟨0, false,
      ["Form inputs may lack proper labels - difficult for screen reader users"]⟩

/-- Skip-navigation check (route.js:1163-1171): 5 points. -/
def skipLinkCheckOf (html : String) : AccComponent :=
  if hasSkipLinkOf html then ⟨5, true, []⟩
  else
    ⟨0, false,
      ["No skip navigation link - keyboard users must tab through entire header"]⟩

/-- ARIA-landmark check (route.js:1174-1182): 5 points. -/
def landmarkCheckOf (html : String) : AccComponent :=
  if hasLandmarksOf html then ⟨5, true, []⟩
  else
    ⟨0, false,
      ["Missing ARIA landmarks - assistive technology cannot navigate page sections"]⟩

/-- Colour-contrast heuristic (route.js:1185-1194): 5 points when no
very-light text colour declaration is found. -/
def contrastCheckOf (html : String) : AccComponent :=
  if !hasLightTextOf html then ⟨5, true, []⟩
  else
    ⟨0, false,
      ["Potential color contrast issues - may be difficult to read for low vision users"]⟩

/-- Focus-style check (route.js:1197-1204): 5 points. -/
def focusCheckOf (html : String) : AccComponent :=
  if hasFocusStylesOf html then ⟨5, true, []⟩
  else
    ⟨0, false,
      ["No visible focus indicators found - keyboard navigation unclear"]⟩

/-- Language-attribute check (route.js:1207-1214): 5 points. -/
def langCheckOf (html : String) : AccComponent :=
  if hasLangAttrOf html then ⟨5, true, []⟩
  else
    ⟨0, false,
      ["Missing language attribute - screen readers may use wrong pronunciation"]⟩

/-- `analyzeAccessibility` result (route.js:1095-1222). -/
structure AccessibilityResult where
  score : ℤ
  issues : List String

/-- `analyzeAccessibility(data, pageSpeedData)` (route.js:1095-1222). -/
def analyzeAccessibility : RawPageData → Option PageSpeedData →
    AccessibilityResult
  | .err _, ps =>
    { score := max (lighthousePtsOf ps) 0
      issues := ["Could not analyze website HTML"] }
  | .ok d, ps =>
    let lh := lighthousePtsOf ps
    let a := altTextCheckOf d.html
    let h := headingCheckOf d.html
    let f := formLabelCheckOf d.html
    let sk := skipLinkCheckOf d.html
    let lm := landmarkCheckOf d.html
    let ct := contrastCheckOf d.html
    let fc := focusCheckOf d.html
    let lg := langCheckOf d.html
    { score := min (lh + a.pts + h.pts + f.pts + sk.pts + lm.pts + ct.pts +
        fc.pts + lg.pts) 100
      issues := a.issues ++ h.issues ++ f.issues ++ sk.issues ++ lm.issues ++
        ct.issues ++ fc.issues ++ lg.issues }

/-! ## Concrete sample inputs used by the closed evaluations below -/

/-- All ten AEO indicator flags off. -/
def emptyAeo : AEOIndicators :=
  ⟨false, false, false, false, false, false, false, false, false, false⟩

/-- A negative detector result. -/
def noDetection : Detection := ⟨false, [], "none"⟩

/-- A negative calculator-detector result. -/
def noCalcDetection : CalcDetection := ⟨false, [], "none"⟩

/-- No meta tags extracted. -/
def emptyMeta : MetaTags := ⟨none, none, none, none, none, none⟩

/-- No structured data extracted. -/
def emptySchema : SchemaMarkup := ⟨false, 0, [], false, false, false, false⟩

/-- A page whose only structured-data block declares type `Organization`. -/
def orgHtml : String :=
  "<script type=\"application/ld+json\">\x7b\"@type\":\"Organization\"\x7d</script>"

/-- The scraped page data for `orgHtml`, with no other feature detected. -/
def orgPage : PageData :=
  { html := orgHtml, headers := [], hasHttps := true
    hasChatbot := noDetection, hasVoiceAgent := noDetection
    hasCalculator := noCalcDetection
    schemaMarkup := extractSchemaMarkup orgHtml
    metaTags := emptyMeta, headings := ⟨[], [], []⟩, hasFAQ := false
    localBusinessInfo := ⟨none, false, false⟩, hasReviews := ⟨false, false⟩
    aeoIndicators := emptyAeo }

/-- A page showing Q&A format but no structured lists. -/
def qaOnlyPage : PageData :=
  { html := "", headers := [], hasHttps := true
    hasChatbot := noDetection, hasVoiceAgent := noDetection
    hasCalculator := noCalcDetection
    schemaMarkup := emptySchema
    metaTags := emptyMeta, headings := ⟨[], [], []⟩, hasFAQ := false
    localBusinessInfo := ⟨none, false, false⟩, hasReviews := ⟨false, false⟩
    aeoIndicators := { emptyAeo with hasQAFormat := true } }

/-- The placeholder used with `List.getD` when projecting one detailed
check out of a `detailedChecks` list. -/
def dummyCheck : DetailedCheck := ⟨"", "", 0, 0⟩

/-- Meta tags of the SEO full-score scenario: a 45-character title, a
140-character description, Open Graph data and a canonical URL. -/
def fullSeoMeta : MetaTags :=
  { title := some ⟨List.replicate 45 'a'⟩
    description := some ⟨List.replicate 140 'b'⟩
    ogTitle := some "OG title", ogDescription := some "OG description"
    canonical := some "https://example.com/", robots := none }

/-- The page data of the SEO full-score scenario. -/
def fullSeoPage : PageData :=
  { html := "", headers := [], hasHttps := true
    hasChatbot := noDetection, hasVoiceAgent := noDetection
    hasCalculator := noCalcDetection
    schemaMarkup := { emptySchema with found := true, count := 1 }
    metaTags := fullSeoMeta, headings := ⟨["Welcome"], [], []⟩
    hasFAQ := false
    localBusinessInfo := ⟨none, false, false⟩, hasReviews := ⟨false, false⟩
    aeoIndicators := emptyAeo }

/-- A mobile performance report with sub-score `0.6`. -/
def psMobile06 : PageSpeedData :=
  { performanceScore := some ⟨3/5, by norm_num⟩, accessibilityScore := none }

/-- A page carrying one syntactically invalid JSON-LD block next to one
valid `LocalBusiness` block. -/
def badGoodHtml : String :=
  "<script type=\"application/ld+json\">\x7bbad</script><script type=\"application/ld+json\">\x7b\"@type\":\"LocalBusiness\"\x7d</script>"

/-- The first (invalid) block of `badGoodHtml` as matched by the scanner. -/
def badBlock : String :=
  "<script type=\"application/ld+json\">\x7bbad</script>"

/-- The second (valid) block of `badGoodHtml` as matched by the scanner. -/
def goodBlock : String :=
  "<script type=\"application/ld+json\">\x7b\"@type\":\"LocalBusiness\"\x7d</script>"

/-- The parse of the valid block of `badGoodHtml`. -/
def goodBlockJson : Json := .obj [("@type", .str "LocalBusiness")]

/-- Html carrying a concrete Intercom loader fingerprint. -/
def intercomHtml : String :=
  "<html><script>window.intercomSettings = window.intercomSettings;</script></html>"

/-- Html with two images of which exactly one has alt text
(alt-text ratio `1/2`). -/
def halfAltHtml : String :=
  "<p><img src=\"a.png\" alt=\"logo\"><img src=\"b.png\"></p>"

/-- The page data for `halfAltHtml`. -/
def halfAltPage : PageData :=
  { html := halfAltHtml, headers := [], hasHttps := true
    hasChatbot := noDetection, hasVoiceAgent := noDetection
    hasCalculator := noCalcDetection
    schemaMarkup := emptySchema
    metaTags := emptyMeta, headings := ⟨[], [], []⟩, hasFAQ := false
    localBusinessInfo := ⟨none, false, false⟩, hasReviews := ⟨false, false⟩
    aeoIndicators := emptyAeo }

/-! ## Claim theorems -/

/-- **C2** (counterexample).  The claim says that on error-marked page data
with both performance reports null every scorer returns 0 and every result
carries at least one explanatory issue.  On the code this fails twice at one
concrete degenerate input: the route.js security scorer never inspects the
error marker and returns 70 for an https URL, and the AEO/GEO scorer returns
an empty issues list. -/
theorem C2_counterexample :
    (analyzeSecurityHeaders "https://example.com" (.err "fetch failed")).score
        = 70 ∧
      (analyzeAEOGEO (.err "fetch failed") "plumbing" "Austin" "Acme").issues
        = [] := by
  decide

/-- **C2** (amended).  Actual degenerate behaviour on an error-marked page
with both performance reports null: AI Readiness and Accessibility return
score 0 with one explanatory issue; AEO/GEO and SEO return score 0 with an
empty issues list; the security scorer ignores the error marker and scores
70 for an https URL (40 HTTPS + 30 partial header credit) and 30 otherwise,
with an issue only in the non-https case. -/
theorem C2_degenerate_behavior (msg industry city company url : String) :
    (analyzeAIReadiness (.err msg)).score = 0 ∧
      (analyzeAIReadiness (.err msg)).issues = ["Could not analyze website"] ∧
      (analyzeAEOGEO (.err msg) industry city company).score = 0 ∧
      (analyzeAEOGEO (.err msg) industry city company).issues = [] ∧
      (analyzeSEO (.err msg) none).score = 0 ∧
      (analyzeSEO (.err msg) none).issues = [] ∧
      (analyzeSecurityHeaders url (.err msg)).score
        = (if startsWithHttps url then 70 else 30) ∧
      (analyzeSecurityHeaders url (.err msg)).issues
        = (if startsWithHttps url then []
           else ["Not using HTTPS - security risk"]) ∧
      (analyzeAccessibility (.err msg) none).score = 0 ∧
      (analyzeAccessibility (.err msg) none).issues
        = ["Could not analyze website HTML"] := by
  refine ⟨rfl, rfl, rfl, rfl, rfl, rfl, ?_, ?_, rfl, rfl⟩ <;>
    by_cases h : startsWithHttps url = true <;>
      simp [analyzeSecurityHeaders, headersOpt, h]

/-- **C7** (counterexample).  The claim says an input showing exactly one of
structured lists / Q&A format scores 8 in the structured-formatting check;
on a page showing only Q&A format the check scores 7, not 8. -/
theorem C7_counterexample :
    ((analyzeAEOGEO (.ok qaOnlyPage) "plumbing" "Austin"
          "Acme").detailedChecks.getD 5 dummyCheck).score = 7 ∧
      ¬ ((analyzeAEOGEO (.ok qaOnlyPage) "plumbing" "Austin"
          "Acme").detailedChecks.getD 5 dummyCheck).score = 8 := by
  decide

/-- **C7** (amended).  The structured-formatting check (maxScore 15) scores
8 for structured lists plus 7 for Q&A format: 15 when both are present, 8
when only lists are present, and 7 (not 8) when only the Q&A format is
present. -/
theorem C7_structured_formatting_amended (d : PageData)
    (industry city company : String) :
    ((analyzeAEOGEO (.ok d) industry city company).detailedChecks.getD 5
        dummyCheck).maxScore = 15 ∧
      ((analyzeAEOGEO (.ok d) industry city company).detailedChecks.getD 5
          dummyCheck).score
        = (if d.aeoIndicators.hasStructuredLists then 8 else 0) +
            (if d.aeoIndicators.hasQAFormat then 7 else 0) := by
  cases h1 : d.aeoIndicators.hasStructuredLists <;>
    cases h2 : d.aeoIndicators.hasQAFormat <;>
      simp [analyzeAEOGEO, structureCheckOf, h1, h2, List.getD]

/-- **C10**.  In the AEO/GEO FAQ-content check: FAQPage schema alone gives
the full 15 points with status `good`; textual FAQ indicators without the
schema give 10 with status `partial`; and the check scores 0 exactly when
both the FAQ text indicator and the FAQ schema flag are absent. -/
theorem C10_faq_check (d : PageData) (industry city company : String) :
    ((analyzeAEOGEO (.ok d) industry city company).detailedChecks.getD 1
        dummyCheck).score
      = (if d.schemaMarkup.hasFAQSchema then 15
         else if d.hasFAQ then 10 else 0) ∧
      ((analyzeAEOGEO (.ok d) industry city company).detailedChecks.getD 1
          dummyCheck).status
        = (if d.schemaMarkup.hasFAQSchema then "good"
           else if d.hasFAQ then "partial" else "missing") ∧
      (((analyzeAEOGEO (.ok d) industry city company).detailedChecks.getD 1
            dummyCheck).score = 0 ↔
        d.hasFAQ = false ∧ d.schemaMarkup.hasFAQSchema = false) := by
  cases h1 : d.schemaMarkup.hasFAQSchema <;> cases h2 : d.hasFAQ <;>
    simp [analyzeAEOGEO, faqCheckOf, h1, h2, List.getD]

/-- Bounds of the AEO/GEO schema-markup check. -/
theorem schemaCheckOf_bounds (sm : SchemaMarkup) :
    0 ≤ (schemaCheckOf sm).check.score ∧ (schemaCheckOf sm).check.score ≤ 20 ∧
      (schemaCheckOf sm).check.maxScore = 20 := by
  unfold schemaCheckOf; split_ifs <;> norm_num

/-- Bounds of the AEO/GEO FAQ-content check. -/
theorem faqCheckOf_bounds (a b : Bool) :
    0 ≤ (faqCheckOf a b).check.score ∧ (faqCheckOf a b).check.score ≤ 15 ∧
      (faqCheckOf a b).check.maxScore = 15 := by
  unfold faqCheckOf; split_ifs <;> norm_num

/-- Bounds of the AEO/GEO local-signals check. -/
theorem localCheckOf_bounds (lb : LocalBusinessInfo) :
    0 ≤ (localCheckOf lb).check.score ∧ (localCheckOf lb).check.score ≤ 15 ∧
      (localCheckOf lb).check.maxScore = 15 := by
  unfold localCheckOf; split_ifs <;> norm_num

/-- Bounds of the AEO/GEO clear-answers check. -/
theorem answersCheckOf_bounds (aeo : AEOIndicators) :
    0 ≤ (answersCheckOf aeo).check.score ∧
      (answersCheckOf aeo).check.score ≤ 20 ∧
      (answersCheckOf aeo).check.maxScore = 20 := by
  unfold answersCheckOf; split_ifs <;> norm_num

/-- Bounds of the AEO/GEO expertise check. -/
theorem expertiseCheckOf_bounds (aeo : AEOIndicators) :
    0 ≤ (expertiseCheckOf aeo).check.score ∧
      (expertiseCheckOf aeo).check.score ≤ 15 ∧
      (expertiseCheckOf aeo).check.maxScore = 15 := by
  unfold expertiseCheckOf; split_ifs <;> norm_num

/-- Bounds of the AEO/GEO structured-content check. -/
theorem structureCheckOf_bounds (aeo : AEOIndicators) :
    0 ≤ (structureCheckOf aeo).check.score ∧
      (structureCheckOf aeo).check.score ≤ 15 ∧
      (structureCheckOf aeo).check.maxScore = 15 := by
  unfold structureCheckOf; split_ifs <;> norm_num

/-- Bounds of the nine detailed security checks. -/
theorem securityChecksD_bounds (url html : String) (hs : Headers) :
    (0 ≤ (httpsCheckD url).check.score ∧ (httpsCheckD url).check.score ≤ 25 ∧
      (httpsCheckD url).check.maxScore = 25) ∧
    (0 ≤ (hstsCheckD hs).check.score ∧ (hstsCheckD hs).check.score ≤ 15 ∧
      (hstsCheckD hs).check.maxScore = 15) ∧
    (0 ≤ (cspCheckD hs).check.score ∧ (cspCheckD hs).check.score ≤ 15 ∧
      (cspCheckD hs).check.maxScore = 15) ∧
    (0 ≤ (frameCheckD hs).check.score ∧ (frameCheckD hs).check.score ≤ 10 ∧
      (frameCheckD hs).check.maxScore = 10) ∧
    (0 ≤ (mimeCheckD hs).check.score ∧ (mimeCheckD hs).check.score ≤ 10 ∧
      (mimeCheckD hs).check.maxScore = 10) ∧
    (0 ≤ (referrerCheckD hs).check.score ∧
      (referrerCheckD hs).check.score ≤ 5 ∧
      (referrerCheckD hs).check.maxScore = 5) ∧
    (0 ≤ (permissionsCheckD hs).check.score ∧
      (permissionsCheckD hs).check.score ≤ 5 ∧
      (permissionsCheckD hs).check.maxScore = 5) ∧
    (0 ≤ (mixedContentCheckD url html).check.score ∧
      (mixedContentCheckD url html).check.score ≤ 10 ∧
      (mixedContentCheckD url html).check.maxScore = 10) ∧
    (0 ≤ (serverInfoCheckD hs).check.score ∧
      (serverInfoCheckD hs).check.score ≤ 5 ∧
      (serverInfoCheckD hs).check.maxScore = 5) := by
  refine ⟨?_, ?_, ?_, ?_, ?_, ?_, ?_, ?_, ?_⟩ <;>
    first
      | (unfold httpsCheckD; split_ifs <;> norm_num)
      | (unfold hstsCheckD; split_ifs <;> norm_num)
      | (unfold cspCheckD; split_ifs <;> norm_num)
      | (unfold frameCheckD; split_ifs <;> norm_num)
      | (unfold mimeCheckD; split_ifs <;> norm_num)
      | (unfold referrerCheckD; split_ifs <;> norm_num)
      | (unfold permissionsCheckD; split_ifs <;> norm_num)
      | (unfold mixedContentCheckD; split_ifs <;> norm_num)
      | (unfold serverInfoCheckD; split_ifs <;> norm_num)

/-- Bounds of the Lighthouse accessibility contribution: with the sub-score
in `[0,1]`, `Math.round(score * 40)` lies in `[0,40]`. -/
theorem lighthousePtsOf_bounds (ps : Option PageSpeedData) :
    0 ≤ lighthousePtsOf ps ∧ lighthousePtsOf ps ≤ 40 := by
  unfold lighthousePtsOf
  cases h : a11yScoreOpt ps with
  | none => simp only [h]; norm_num
  | some q =>
    simp only [h]
    obtain ⟨h0, h1⟩ := q.2
    unfold jsRound
    constructor
    · have : (0 : ℚ) ≤ q.val * 40 + 1/2 := by nlinarith
      exact_mod_cast Int.le_floor.mpr (by push_cast; linarith)
    · have hlt : (⌊q.val * 40 + 1/2⌋ : ℤ) < 41 := by
        apply Int.floor_lt.mpr
        push_cast
        nlinarith
      omega

/-- Bounds of the eight HTML-derived accessibility sub-checks. -/
theorem accChecks_bounds (html : String) :
    (0 ≤ (altTextCheckOf html).pts ∧ (altTextCheckOf html).pts ≤ 15) ∧
    (0 ≤ (headingCheckOf html).pts ∧ (headingCheckOf html).pts ≤ 10) ∧
    (0 ≤ (formLabelCheckOf html).pts ∧ (formLabelCheckOf html).pts ≤ 10) ∧
    (0 ≤ (skipLinkCheckOf html).pts ∧ (skipLinkCheckOf html).pts ≤ 5) ∧
    (0 ≤ (landmarkCheckOf html).pts ∧ (landmarkCheckOf html).pts ≤ 5) ∧
    (0 ≤ (contrastCheckOf html).pts ∧ (contrastCheckOf html).pts ≤ 5) ∧
    (0 ≤ (focusCheckOf html).pts ∧ (focusCheckOf html).pts ≤ 5) ∧
    (0 ≤ (langCheckOf html).pts ∧ (langCheckOf html).pts ≤ 5) := by
  refine ⟨?_, ?_, ?_, ?_, ?_, ?_, ?_, ?_⟩ <;>
    first
      | (unfold altTextCheckOf; split_ifs <;> norm_num)
      | (unfold headingCheckOf; split_ifs <;> norm_num)
      | (unfold formLabelCheckOf; split_ifs <;> norm_num)
      | (unfold skipLinkCheckOf; split_ifs <;> norm_num)
      | (unfold landmarkCheckOf; split_ifs <;> norm_num)
      | (unfold contrastCheckOf; split_ifs <;> norm_num)
      | (unfold focusCheckOf; split_ifs <;> norm_num)
      | (unfold langCheckOf; split_ifs <;> norm_num)

/-- **C1**.  Every category scorer returns an integer score in `[0, 100]`,
for every raw page data (error-marked or not), every performance report
(sub-scores in `[0,1]` per the data model) and every business context:
AI Readiness, AEO/GEO, SEO, both revisions of the security scorer, and
Accessibility. -/
theorem C1_category_scores_in_range :
    (∀ data : RawPageData,
      0 ≤ (analyzeAIReadiness data).score ∧
        (analyzeAIReadiness data).score ≤ 100) ∧
    (∀ (data : RawPageData) (industry city company : String),
      0 ≤ (analyzeAEOGEO data industry city company).score ∧
        (analyzeAEOGEO data industry city company).score ≤ 100) ∧
    (∀ (data : RawPageData) (ps : Option PageSpeedData),
      0 ≤ (analyzeSEO data ps).score ∧ (analyzeSEO data ps).score ≤ 100) ∧
    (∀ (url : String) (data : RawPageData),
      0 ≤ (analyzeSecurityHeaders url data).score ∧
        (analyzeSecurityHeaders url data).score ≤ 100) ∧
    (∀ (url : String) (data : RawPageData),
      0 ≤ (analyzeSecurityHeadersDetailed url data).score ∧
        (analyzeSecurityHeadersDetailed url data).score ≤ 100) ∧
    (∀ (data : RawPageData) (ps : Option PageSpeedData),
      0 ≤ (analyzeAccessibility data ps).score ∧
        (analyzeAccessibility data ps).score ≤ 100) := by
  refine ⟨?_, ?_, ?_, ?_, ?_, ?_⟩
  · intro data
    cases data with
    | err msg => refine ⟨?_, ?_⟩ <;> norm_num [analyzeAIReadiness]
    | ok d =>
      simp only [analyzeAIReadiness]
      refine ⟨le_min ?_ (by norm_num), min_le_right _ _⟩
      split_ifs <;> norm_num
  · intro data industry city company
    cases data with
    | err msg => refine ⟨?_, ?_⟩ <;> norm_num [analyzeAEOGEO]
    | ok d =>
      have h1 := schemaCheckOf_bounds d.schemaMarkup
      have h2 := faqCheckOf_bounds d.hasFAQ d.schemaMarkup.hasFAQSchema
      have h3 := localCheckOf_bounds d.localBusinessInfo
      have h4 := answersCheckOf_bounds d.aeoIndicators
      have h5 := expertiseCheckOf_bounds d.aeoIndicators
      have h6 := structureCheckOf_bounds d.aeoIndicators
      simp only [analyzeAEOGEO]
      refine ⟨le_min (by omega) (by norm_num), min_le_right _ _⟩
  · intro data ps
    cases data with
    | err msg => refine ⟨?_, ?_⟩ <;> norm_num [analyzeSEO]
    | ok d =>
      have hb := seoPts_bounds d.metaTags d.headings
      obtain ⟨s1, s2, s3, s4⟩ := hb
      simp only [analyzeSEO]
      refine ⟨le_min ?_ (by norm_num), min_le_right _ _⟩
      split_ifs <;> omega
  · intro url data
    cases data with
    | err msg =>
      simp only [analyzeSecurityHeaders, headersOpt]
      refine ⟨le_min ?_ (by norm_num), min_le_right _ _⟩
      split_ifs <;> norm_num
    | ok d =>
      simp only [analyzeSecurityHeaders, headersOpt]
      refine ⟨le_min ?_ (by norm_num), min_le_right _ _⟩
      split_ifs <;> norm_num
  · intro url data
    have h := securityChecksD_bounds url (htmlOf data) (headersOrEmpty data)
    obtain ⟨b1, b2, b3, b4, b5, b6, b7, b8, b9⟩ := h
    simp only [analyzeSecurityHeadersDetailed]
    refine ⟨le_min (by omega) (by norm_num), min_le_right _ _⟩
  · intro data ps
    have hl := lighthousePtsOf_bounds ps
    cases data with
    | err msg =>
      simp only [analyzeAccessibility]
      omega
    | ok d =>
      have ha := accChecks_bounds d.html
      obtain ⟨a1, a2, a3, a4, a5, a6, a7, a8⟩ := ha
      simp only [analyzeAccessibility]
      refine ⟨le_min (by omega) (by norm_num), min_le_right _ _⟩

/-- **C3**.  Every detailed check of the AEO/GEO scorer and of the detailed
security scorer satisfies `0 ≤ score ≤ maxScore`, and the sum of a
category's detailed-check scores, clamped to 100, equals the category's
reported score (on the error path the list is empty and the score is 0, so
the equation holds there too). -/
theorem C3_detailed_checks_invariant (data : RawPageData)
    (industry city company url : String) :
    (∀ ch ∈ (analyzeAEOGEO data industry city company).detailedChecks,
      0 ≤ ch.score ∧ ch.score ≤ ch.maxScore) ∧
    min (((analyzeAEOGEO data industry city company).detailedChecks.map
        DetailedCheck.score).sum) 100
      = (analyzeAEOGEO data industry city company).score ∧
    (∀ ch ∈ (analyzeSecurityHeadersDetailed url data).detailedChecks,
      0 ≤ ch.score ∧ ch.score ≤ ch.maxScore) ∧
    min (((analyzeSecurityHeadersDetailed url data).detailedChecks.map
        DetailedCheck.score).sum) 100
      = (analyzeSecurityHeadersDetailed url data).score := by
  refine ⟨?_, ?_, ?_, ?_⟩
  · cases data with
    | err msg => simp [analyzeAEOGEO]
    | ok d =>
      intro ch hch
      obtain ⟨b11, b12, b13⟩ := schemaCheckOf_bounds d.schemaMarkup
      obtain ⟨b21, b22, b23⟩ :=
        faqCheckOf_bounds d.hasFAQ d.schemaMarkup.hasFAQSchema
      obtain ⟨b31, b32, b33⟩ := localCheckOf_bounds d.localBusinessInfo
      obtain ⟨b41, b42, b43⟩ := answersCheckOf_bounds d.aeoIndicators
      obtain ⟨b51, b52, b53⟩ := expertiseCheckOf_bounds d.aeoIndicators
      obtain ⟨b61, b62, b63⟩ := structureCheckOf_bounds d.aeoIndicators
      simp only [analyzeAEOGEO, List.mem_cons, List.not_mem_nil,
        or_false] at hch
      rcases hch with h | h | h | h | h | h <;> subst h <;>
        constructor <;> omega
  · cases data with
    | err msg => simp [analyzeAEOGEO]
    | ok d =>
      simp only [analyzeAEOGEO, List.map_cons, List.map_nil, List.sum_cons,
        List.sum_nil]
      congr 1
      ring
  · intro ch hch
    obtain ⟨⟨b11, b12, b13⟩, ⟨b21, b22, b23⟩, ⟨b31, b32, b33⟩,
        ⟨b41, b42, b43⟩, ⟨b51, b52, b53⟩, ⟨b61, b62, b63⟩,
        ⟨b71, b72, b73⟩, ⟨b81, b82, b83⟩, ⟨b91, b92, b93⟩⟩ :=
      securityChecksD_bounds url (htmlOf data) (headersOrEmpty data)
    simp only [analyzeSecurityHeadersDetailed, List.mem_cons,
      List.not_mem_nil, or_false] at hch
    rcases hch with h | h | h | h | h | h | h | h | h <;> subst h <;>
      constructor <;> omega
  · simp only [analyzeSecurityHeadersDetailed, List.map_cons, List.map_nil,
      List.sum_cons, List.sum_nil]
    congr 1
    ring

/-- **C4**.  SEO full-score scenario: for every error-free page data whose
title has length 45, description length 140, exactly one H1, structured data
found, HTTPS, a (truthy) canonical URL, a mobile performance sub-score of
0.6, and both Open Graph title and description present, `analyzeSEO` scores
exactly 100. -/
theorem C4_seo_full_score (d : PageData) (ps : Option PageSpeedData)
    (ttl dsc : String)
    (ht : d.metaTags.title = some ttl) (htl : ttl.length = 45)
    (hdsc : d.metaTags.description = some dsc) (hdl : dsc.length = 140)
    (hh : d.headings.h1.length = 1)
    (hs : d.schemaMarkup.found = true)
    (hhttps : d.hasHttps = true)
    (hc : strTruthy d.metaTags.canonical = true)
    (hm : perfScoreOrZero ps = 3/5)
    (hog1 : strTruthy d.metaTags.ogTitle = true)
    (hog2 : strTruthy d.metaTags.ogDescription = true) :
    (analyzeSEO (.ok d) ps).score = 100 := by
  have hne : ttl ≠ "" := by
    intro h
    rw [h] at htl
    simp at htl
  have hdne : dsc ≠ "" := by
    intro h
    rw [h] at hdl
    simp at hdl
  have h1 : seoTitlePts d.metaTags = 15 := by
    unfold seoTitlePts
    rw [ht]
    simp [strTruthy, String.isEmpty_iff, hne, htl]
  have h2 : seoDescPts d.metaTags = 15 := by
    unfold seoDescPts
    rw [hdsc]
    simp [strTruthy, String.isEmpty_iff, hdne, hdl]
  have h3 : seoH1Pts d.headings = 15 := by
    unfold seoH1Pts
    rw [hh]
    norm_num
  have h4 : seoOgPts d.metaTags = 10 := by
    unfold seoOgPts
    rw [hog1, hog2]
    norm_num
  simp only [analyzeSEO, h1, h2, h3, h4, hs, hhttps, hc, hm]
  norm_num

set_option maxRecDepth 4000 in
/-- **C4** (witness): the full-score scenario at a concrete page. -/
theorem C4_seo_full_score_witness :
    (analyzeSEO (.ok fullSeoPage) (some psMobile06)).score = 100 := by
  apply C4_seo_full_score fullSeoPage (some psMobile06)
    ⟨List.replicate 45 'a'⟩ ⟨List.replicate 140 'b'⟩ rfl (by decide) rfl
    (by decide) (by decide) (by decide) (by decide) (by decide) rfl
    (by decide) (by decide)

/-- A detector registry detects something iff some registry pattern matches
the html. -/
theorem registry_detected_iff (reg : List (String × (String → Bool)))
    (html : String) :
    0 < ((reg.filter (fun v => v.2 html)).map Prod.fst).length ↔
      ∃ v ∈ reg, v.2 html = true := by
  rw [List.length_map, List.length_pos, ne_eq, List.filter_eq_nil_iff]
  push_neg
  simp

/-- **C6**.  Confidence grading of the feature detectors: the chatbot and
voice-agent detectors (whose registries hold concrete script/global-object
fingerprints) report `high` exactly when some registry pattern matched and
`none` exactly when none did; the calculator detector (whose registry holds
the looser structural patterns) reports `medium` exactly when one of its
patterns matched and `none` otherwise.  In particular, a page carrying a
concrete Intercom loader fingerprint gets chatbot confidence `high`. -/
theorem C6_confidence_grading :
    (∀ html : String,
      (((checkForChatbot html).confidence = "high" ↔
          ∃ v ∈ chatbotRegistry, v.2 html = true) ∧
        ((checkForChatbot html).confidence = "none" ↔
          ∀ v ∈ chatbotRegistry, v.2 html = false)) ∧
      (((checkForVoiceAgent html).confidence = "high" ↔
          ∃ v ∈ voiceRegistry, v.2 html = true) ∧
        ((checkForVoiceAgent html).confidence = "none" ↔
          ∀ v ∈ voiceRegistry, v.2 html = false)) ∧
      (((checkForCalculator html).confidence = "medium" ↔
          calcAnyPattern html = true) ∧
        ((checkForCalculator html).confidence = "none" ↔
          calcAnyPattern html = false))) ∧
    (checkForChatbot intercomHtml).confidence = "high" ∧
    (checkForChatbot intercomHtml).providers = ["Intercom"] := by
  refine ⟨?_, by decide, by decide⟩
  intro html
  refine ⟨?_, ?_, ?_⟩
  · have hcb := registry_detected_iff chatbotRegistry html
    simp only [checkForChatbot, gt_iff_lt]
    by_cases h :
        0 < ((chatbotRegistry.filter (fun v => v.2 html)).map Prod.fst).length
    · rw [if_pos h]
      exact ⟨iff_of_true rfl (hcb.mp h),
        iff_of_false (by decide) (fun hall => by
          rcases hcb.mp h with ⟨v, hm, hp⟩
          rw [hall v hm] at hp
          exact Bool.false_ne_true hp)⟩
    · rw [if_neg h]
      refine ⟨iff_of_false (by decide) (fun hex => h (hcb.mpr hex)), ?_⟩
      refine iff_of_true rfl ?_
      intro v hv
      cases hb : v.2 html with
      | false => rfl
      | true => exact absurd (hcb.mpr ⟨v, hv, hb⟩) h
  · have hva := registry_detected_iff voiceRegistry html
    simp only [checkForVoiceAgent, gt_iff_lt]
    by_cases h :
        0 < ((voiceRegistry.filter (fun v => v.2 html)).map Prod.fst).length
    · rw [if_pos h]
      exact ⟨iff_of_true rfl (hva.mp h),
        iff_of_false (by decide) (fun hall => by
          rcases hva.mp h with ⟨v, hm, hp⟩
          rw [hall v hm] at hp
          exact Bool.false_ne_true hp)⟩
    · rw [if_neg h]
      refine ⟨iff_of_false (by decide) (fun hex => h (hva.mpr hex)), ?_⟩
      refine iff_of_true rfl ?_
      intro v hv
      cases hb : v.2 html with
      | false => rfl
      | true => exact absurd (hva.mpr ⟨v, hv, hb⟩) h
  · rcases hp : calcPlatformPat html <;> rcases hi : calcIdPat html <;>
      rcases ht : calcTypeformPat html <;> rcases hf : calcFormPat html <;>
        rcases hw : calcWidgetPat html <;> rcases hs : calcScriptPat html <;>
          simp [checkForCalculator, calcAnyPattern, hp, hi, ht, hf, hw, hs]

/-- A schema-flag `.some(...)` test over the extracted schemas holds iff
some located block parses to a JSON value whose declared type passes the
test.  (`hq` covers the two skipped shapes: a block parsing to `null` is
skipped, and its declared type would be `'Unknown'` anyway.) -/
theorem schemas_any_iff (html : String) (q : Json → Bool)
    (hq : q (Json.str "Unknown") = false) :
    ((extractSchemaMarkup html).schemas.any (fun s => q s.schemaType)
        = true) ↔
      ∃ b ∈ jsonLdMatches html, ∃ p,
        jsonParse (stripScriptTags b) = some p ∧
          q (schemaTypeOf p) = true := by
  simp only [extractSchemaMarkup]
  rw [List.any_eq_true]
  constructor
  · rintro ⟨s, hs, hqs⟩
    rcases List.mem_filterMap.mp hs with ⟨b, hb, hpb⟩
    refine ⟨b, hb, ?_⟩
    unfold parsedSchemaEntry at hpb
    cases hj : jsonParse (stripScriptTags b) with
    | none => rw [hj] at hpb; exact absurd hpb (by simp)
    | some p =>
      rw [hj] at hpb
      refine ⟨p, rfl, ?_⟩
      cases p with
      | null => exact absurd hpb (by simp)
      | bool v =>
        simp only [Option.some.injEq] at hpb
        rw [← hpb] at hqs
        exact hqs
      | num v =>
        simp only [Option.some.injEq] at hpb
        rw [← hpb] at hqs
        exact hqs
      | str v =>
        simp only [Option.some.injEq] at hpb
        rw [← hpb] at hqs
        exact hqs
      | arr v =>
        simp only [Option.some.injEq] at hpb
        rw [← hpb] at hqs
        exact hqs
      | obj v =>
        simp only [Option.some.injEq] at hpb
        rw [← hpb] at hqs
        exact hqs
  · rintro ⟨b, hb, p, hp, hq2⟩
    have hpn : p ≠ .null := by
      intro h
      subst h
      unfold schemaTypeOf jsonGet at hq2
      simp only at hq2
      rw [hq] at hq2
      exact Bool.false_ne_true hq2
    refine ⟨⟨"JSON-LD", schemaTypeOf p, p⟩, List.mem_filterMap.mpr
      ⟨b, hb, ?_⟩, hq2⟩
    unfold parsedSchemaEntry
    rw [hp]
    cases p with
    | null => exact absurd rfl hpn
    | bool v => rfl
    | num v => rfl
    | str v => rfl
    | arr v => rfl
    | obj v => rfl

/-- **C5**.  One malformed JSON-LD block never aborts the extraction of the
others: on any html that carries a block failing to parse next to a block
parsing to a value with declared `@type` string `T`, the extraction (a total
function, so it cannot raise) still reflects `T` in the returned schemas,
the valid block is counted in `count`, and the invalid block contributes no
schema entry. -/
theorem C5_malformed_block_skipped (html b1 b2 : String) (p : Json)
    (T : String)
    (hb1 : b1 ∈ jsonLdMatches html)
    (h1 : jsonParse (stripScriptTags b1) = none)
    (hb2 : b2 ∈ jsonLdMatches html)
    (h2 : jsonParse (stripScriptTags b2) = some p)
    (ht : jsonGet p "@type" = some (.str T))
    (hT : T ≠ "") :
    (∃ s ∈ (extractSchemaMarkup html).schemas, s.schemaType = .str T) ∧
      1 ≤ (extractSchemaMarkup html).count ∧
      parsedSchemaEntry b1 = none := by
  have hst : schemaTypeOf p = .str T := by
    unfold schemaTypeOf
    rw [ht]
    simp [jsTruthy, String.isEmpty_iff, hT]
  have hpn : p ≠ .null := by
    intro h
    subst h
    simp [jsonGet] at ht
  have hentry : parsedSchemaEntry b2 = some ⟨"JSON-LD", schemaTypeOf p, p⟩ := by
    unfold parsedSchemaEntry
    rw [h2]
    cases p with
    | null => exact absurd rfl hpn
    | bool v => rfl
    | num v => rfl
    | str v => rfl
    | arr v => rfl
    | obj v => rfl
  have hmem : (⟨"JSON-LD", schemaTypeOf p, p⟩ : SchemaEntry) ∈
      (extractSchemaMarkup html).schemas := by
    simp only [extractSchemaMarkup]
    exact List.mem_filterMap.mpr ⟨b2, hb2, hentry⟩
  refine ⟨⟨_, hmem, hst⟩, ?_, ?_⟩
  · have hlen : 0 < (extractSchemaMarkup html).schemas.length :=
      List.length_pos.mpr (List.ne_nil_of_mem hmem)
    simpa [extractSchemaMarkup] using hlen
  · unfold parsedSchemaEntry
    rw [h1]

set_option maxRecDepth 8000 in
/-- **C5** (witness): the malformed-plus-valid scenario at a concrete page,
with the two blocks as the scanner locates them. -/
theorem C5_malformed_block_skipped_witness :
    (∃ s ∈ (extractSchemaMarkup badGoodHtml).schemas,
        s.schemaType = .str "LocalBusiness") ∧
      1 ≤ (extractSchemaMarkup badGoodHtml).count ∧
      parsedSchemaEntry badBlock = none :=
  C5_malformed_block_skipped badGoodHtml badBlock goodBlock goodBlockJson
    "LocalBusiness" (by decide) rfl (by decide) rfl rfl (by decide)

set_option maxRecDepth 8000 in
/-- **C9**.  The aggregate schema flags are membership tests of the declared
top-level `@type` of the successfully parsed blocks against fixed type-name
sets: `hasLocalBusiness` holds exactly when some parsed block declares
`LocalBusiness`, `Organization` or `ProfessionalService` (likewise
`hasFAQSchema` for `FAQPage`, `hasReviewSchema` for `Review`/
`AggregateRating`, `hasServiceSchema` for `Service`/`Product`).
Consequently a page whose only schema block declares `Organization` earns
the +5 local-business bonus on top of the 10 base schema points in both the
AI Readiness scorer (score 15 with nothing else detected) and the AEO/GEO
schema check (score 15 of 20). -/
theorem C9_schema_type_flags :
    (∀ html : String,
      ((extractSchemaMarkup html).hasLocalBusiness = true ↔
        ∃ b ∈ jsonLdMatches html, ∃ p,
          jsonParse (stripScriptTags b) = some p ∧
            (jsEqStr (schemaTypeOf p) "LocalBusiness" ||
              jsEqStr (schemaTypeOf p) "Organization" ||
              jsEqStr (schemaTypeOf p) "ProfessionalService") = true) ∧
      ((extractSchemaMarkup html).hasFAQSchema = true ↔
        ∃ b ∈ jsonLdMatches html, ∃ p,
          jsonParse (stripScriptTags b) = some p ∧
            jsEqStr (schemaTypeOf p) "FAQPage" = true) ∧
      ((extractSchemaMarkup html).hasReviewSchema = true ↔
        ∃ b ∈ jsonLdMatches html, ∃ p,
          jsonParse (stripScriptTags b) = some p ∧
            (jsEqStr (schemaTypeOf p) "Review" ||
              jsEqStr (schemaTypeOf p) "AggregateRating") = true) ∧
      ((extractSchemaMarkup html).hasServiceSchema = true ↔
        ∃ b ∈ jsonLdMatches html, ∃ p,
          jsonParse (stripScriptTags b) = some p ∧
            (jsEqStr (schemaTypeOf p) "Service" ||
              jsEqStr (schemaTypeOf p) "Product") = true)) ∧
    (analyzeAIReadiness (.ok orgPage)).score = 15 ∧
    ((analyzeAEOGEO (.ok orgPage) "plumbing" "Austin"
        "Acme").detailedChecks.getD 0 dummyCheck).score = 15 := by
  refine ⟨?_, by decide, by decide⟩
  intro html
  exact ⟨schemas_any_iff html
      (fun j => jsEqStr j "LocalBusiness" || jsEqStr j "Organization" ||
        jsEqStr j "ProfessionalService") (by decide),
    schemas_any_iff html (fun j => jsEqStr j "FAQPage") (by decide),
    schemas_any_iff html
      (fun j => jsEqStr j "Review" || jsEqStr j "AggregateRating")
      (by decide),
    schemas_any_iff html
      (fun j => jsEqStr j "Service" || jsEqStr j "Product") (by decide)⟩

/-- **C8**.  Alt-text tiers of the Accessibility scorer, for every
error-free page: with no `<img>` tags the ratio is 1 and the check yields
the full 15 points with no issue; ratio `≥ 0.9` yields 15 points and no
issue; `0.5 ≤ ratio < 0.9` yields 8 points with the percentage issue;
ratio `< 0.5` yields 0 points and the explanatory issue, which then appears
in the scorer's issues list.  The last two conjuncts tie the component to
the scorer: the accessibility score and issues are assembled from exactly
these components. -/
theorem C8_alt_text_tiers (d : PageData) (ps : Option PageSpeedData) :
    ((imgTagsOf d.html).isEmpty = true →
      altRatioOf d.html = 1 ∧ altTextCheckOf d.html = ⟨15, true, []⟩) ∧
    ((9 : ℚ)/10 ≤ altRatioOf d.html →
      (altTextCheckOf d.html).pts = 15 ∧
        (altTextCheckOf d.html).issues = []) ∧
    ((1 : ℚ)/2 ≤ altRatioOf d.html → altRatioOf d.html < (9 : ℚ)/10 →
      (altTextCheckOf d.html).pts = 8 ∧
        (altTextCheckOf d.html).issues =
          [toString (jsRound ((1 - altRatioOf d.html) * 100)) ++
            "% of images missing alt text - screen readers cannot describe them"]) ∧
    (altRatioOf d.html < (1 : ℚ)/2 →
      (altTextCheckOf d.html).pts = 0 ∧
        (altTextCheckOf d.html).issues =
          ["Most images missing alt text - site not accessible to visually impaired users"] ∧
        "Most images missing alt text - site not accessible to visually impaired users"
          ∈ (analyzeAccessibility (.ok d) ps).issues) ∧
    (analyzeAccessibility (.ok d) ps).score =
      min (lighthousePtsOf ps + (altTextCheckOf d.html).pts +
        (headingCheckOf d.html).pts + (formLabelCheckOf d.html).pts +
        (skipLinkCheckOf d.html).pts + (landmarkCheckOf d.html).pts +
        (contrastCheckOf d.html).pts + (focusCheckOf d.html).pts +
        (langCheckOf d.html).pts) 100 ∧
    (analyzeAccessibility (.ok d) ps).issues =
      (altTextCheckOf d.html).issues ++ (headingCheckOf d.html).issues ++
        (formLabelCheckOf d.html).issues ++ (skipLinkCheckOf d.html).issues ++
        (landmarkCheckOf d.html).issues ++ (contrastCheckOf d.html).issues ++
        (focusCheckOf d.html).issues ++ (langCheckOf d.html).issues := by
  refine ⟨?_, ?_, ?_, ?_, rfl, rfl⟩
  · intro hempty
    have hr : altRatioOf d.html = 1 := by
      unfold altRatioOf
      rw [List.isEmpty_iff] at hempty
      simp [hempty]
    refine ⟨hr, ?_⟩
    unfold altTextCheckOf
    rw [hr]
    norm_num
  · intro h9
    unfold altTextCheckOf
    rw [if_pos h9]
    exact ⟨rfl, rfl⟩
  · intro h5 h9
    unfold altTextCheckOf
    rw [if_neg (not_le.mpr h9), if_pos h5]
    exact ⟨rfl, rfl⟩
  · intro hlow
    have h9 : ¬ ((9 : ℚ)/10 ≤ altRatioOf d.html) := by
      intro hc
      linarith
    have h5 : ¬ ((1 : ℚ)/2 ≤ altRatioOf d.html) := not_le.mpr hlow
    have hc : altTextCheckOf d.html =
        ⟨0, false,
          ["Most images missing alt text - site not accessible to visually impaired users"]⟩ := by
      unfold altTextCheckOf
      rw [if_neg h9, if_neg h5]
    refine ⟨by rw [hc], by rw [hc], ?_⟩
    show _ ∈ (analyzeAccessibility (.ok d) ps).issues
    simp only [analyzeAccessibility]
    apply List.mem_append_left
    apply List.mem_append_left
    apply List.mem_append_left
    apply List.mem_append_left
    apply List.mem_append_left
    apply List.mem_append_left
    apply List.mem_append_left
    rw [hc]
    exact List.mem_singleton_self _

/-- **C8** (witness): a concrete page with two images, one of which has alt
text (ratio one half), lands in the 8-point tier with the percentage
issue. -/
theorem C8_alt_text_tiers_witness :
    (altTextCheckOf halfAltHtml).pts = 8 ∧
      (altTextCheckOf halfAltHtml).issues =
        [toString (jsRound ((1 - altRatioOf halfAltHtml) * 100)) ++
          "% of images missing alt text - screen readers cannot describe them"] := by
  have hn : (imgTagsOf halfAltHtml).length = 2 := by decide
  have hk : (imgsWithAltOf halfAltHtml).length = 1 := by decide
  have hr : altRatioOf halfAltHtml = 1/2 := by
    unfold altRatioOf
    rw [hn, hk]
    norm_num
  have h5 : (1 : ℚ)/2 ≤ altRatioOf halfAltHtml := by rw [hr]
  have h9 : altRatioOf halfAltHtml < (9 : ℚ)/10 := by rw [hr]; norm_num
  exact ((C8_alt_text_tiers halfAltPage none).2.2.1 h5 h9).imp id id
